import Mathlib

/-!
Verification of the JamesTrade core (trading_core.py, db_json.py) against its
natural-language specification.

The Python data is JSON-decoded: dictionaries, lists, strings, numbers,
booleans and None.  We embed these as the inductive type `JVal`; dictionaries
become association lists in insertion order (Python dicts preserve insertion
order, `setdefault` appends at the end, item assignment replaces in place).
Numbers are embedded as rationals; the programs under verification only
compare them for equality/order and do integer-style arithmetic on them.
-/

inductive JVal where
  | null : JVal
  | bool (b : Bool) : JVal
  | num (q : ℚ) : JVal
  | str (s : String) : JVal
  | arr (l : List JVal) : JVal
  | obj (l : List (String × JVal)) : JVal

/-- First-match lookup in an association list (Python `d[k]` / `d.get(k)`;
Python dict keys are unique, so first match is the only match). -/
def lookupA : List (String × JVal) → String → Option JVal
  | [], _ => none
  | (k, v) :: rest, key => if k = key then some v else lookupA rest key

/-- Python item assignment `d[k] = v`: replace the value of an existing key in
place, otherwise append the new key at the end. -/
def dsetA : List (String × JVal) → String → JVal → List (String × JVal)
  | [], key, v => [(key, v)]
  | (k, w) :: rest, key, v =>
    if k = key then (k, v) :: rest else (k, w) :: dsetA rest key v

/-- Python `d.setdefault(k, v)`: leave the dict unchanged when the key is
present, otherwise append the key with the default value. -/
def setdefaultA (m : List (String × JVal)) (key : String) (v : JVal) :
    List (String × JVal) :=
  match lookupA m key with
  | some _ => m
  | none => m ++ [(key, v)]

/-- Python truthiness (`bool(x)`) on JSON-decoded values. -/
def truthy : JVal → Bool
  | .null => false
  | .bool b => b
  | .num q => decide (q ≠ 0)
  | .str s => decide (s ≠ "")
  | .arr l => !l.isEmpty
  | .obj l => !l.isEmpty

/-- Decimal string of an integer, as Python `str` renders one. -/
def intStr (n : ℤ) : String :=
  if n < 0 then "-" ++ Nat.repr n.natAbs else Nat.repr n.natAbs

/-- Python `str(x)` on the fragment of values the code stringifies.  The code
under verification only ever compares such strings with "401", searches them
for fixed lower-case markers, or feeds them to a timestamp parser; integers
render exactly as in Python, non-integer rationals get a num/den placeholder
(Python float repr is not modelled; no claim exercises it). -/
def pyStr : JVal → String
  | .null => "None"
  | .bool true => "True"
  | .bool false => "False"
  | .str s => s
  | .num q => if q.den = 1 then intStr q.num else intStr q.num ++ "/" ++ Nat.repr q.den
  | .arr _ => "[list]"
  | .obj _ => "[dict]"

/-- Lower-case a string, character by character. -/
def strLower (s : String) : String := String.mk (s.data.map Char.toLower)

/-- Does the needle occur at the head of the haystack? -/
def subAt : List Char → List Char → Bool
  | _, [] => true
  | [], _ :: _ => false
  | a :: as, b :: bs => a = b && subAt as bs

/-- Does the needle occur anywhere in the haystack? -/
def hasSubL : List Char → List Char → Bool
  | [], needle => needle.isEmpty
  | a :: rest, needle => subAt (a :: rest) needle || hasSubL rest needle

/-- Python `needle in hay` on strings. -/
def strHasSub (hay needle : String) : Bool := hasSubL hay.data needle.data

/-- Is the string non-empty and all decimal digits (Python `str.isdigit` on
the ASCII fragment the code meets)? -/
def isDigitStr (s : String) : Bool := !s.data.isEmpty && s.data.all Char.isDigit

/-- Value of a non-empty digit string. -/
def digitsToNat (l : List Char) : ℕ := l.foldl (fun a c => a * 10 + (c.toNat - 48)) 0

/-- Does Python `int(uid_str)` succeed?  (Optional sign followed by digits;
the exotic underscore/whitespace forms Python also accepts are not modelled,
no claim exercises them.) -/
def isIntStr (s : String) : Bool :=
  match s.data with
  | [] => false
  | c :: rest =>
    if c = '-' || c = '+' then !rest.isEmpty && rest.all Char.isDigit
    else (c :: rest).all Char.isDigit

-- Basic association-list lemmas used throughout.

theorem lookupA_dsetA (m : List (String × JVal)) (k k' : String) (v : JVal) :
    lookupA (dsetA m k v) k' = if k' = k then some v else lookupA m k' := by
  induction m with
  | nil =>
    simp only [dsetA, lookupA]
    by_cases h : k' = k
    · subst h; simp
    · rw [if_neg (fun hh => h hh.symm), if_neg h]
  | cons a rest ih =>
    obtain ⟨ka, va⟩ := a
    simp only [dsetA]
    by_cases h1 : ka = k
    · subst h1
      simp only [if_pos rfl, lookupA]
      by_cases h2 : ka = k'
      · subst h2; simp
      · rw [if_neg h2, if_neg (fun hh => h2 hh.symm), if_neg h2]
    · rw [if_neg h1]
      simp only [lookupA]
      by_cases h2 : ka = k'
      · subst h2
        rw [if_pos rfl, if_pos rfl, if_neg h1]
      · rw [if_neg h2, if_neg h2, ih]

theorem lookupA_append (m₁ m₂ : List (String × JVal)) (k : String) :
    lookupA (m₁ ++ m₂) k =
      match lookupA m₁ k with
      | some v => some v
      | none => lookupA m₂ k := by
  induction m₁ with
  | nil => simp [lookupA]
  | cons a rest ih =>
    obtain ⟨ka, va⟩ := a
    by_cases h : ka = k <;> simp [lookupA, h, ih]

theorem lookupA_setdefaultA (m : List (String × JVal)) (k k' : String) (v : JVal) :
    lookupA (setdefaultA m k v) k' =
      match lookupA m k' with
      | some w => some w
      | none => if k' = k then some v else none := by
  unfold setdefaultA
  cases h : lookupA m k with
  | some w =>
    cases h' : lookupA m k' with
    | some w' => simp
    | none =>
      by_cases hk : k' = k
      · subst hk; rw [h'] at h; cases h
      · simp [hk]
  | none =>
    rw [lookupA_append]
    cases h' : lookupA m k' with
    | some w' => simp
    | none =>
      by_cases hk : k' = k
      · subst hk; simp [lookupA]
      · simp [lookupA, hk, Ne.symm hk]

theorem dsetA_eq_self (m : List (String × JVal)) (k : String) (v : JVal)
    (h : lookupA m k = some v) : dsetA m k v = m := by
  induction m with
  | nil => cases h
  | cons a rest ih =>
    obtain ⟨ka, va⟩ := a
    by_cases hk : ka = k
    · subst hk
      simp [lookupA] at h
      simp [dsetA, h]
    · simp [lookupA, hk] at h
      simp [dsetA, hk, ih h]

theorem setdefaultA_of_isSome (m : List (String × JVal)) (k : String) (v : JVal)
    (h : (lookupA m k).isSome) : setdefaultA m k v = m := by
  unfold setdefaultA
  cases h' : lookupA m k with
  | some w => rfl
  | none => rw [h'] at h; cases h

theorem lookupA_mem_isSome (m : List (String × JVal)) (k : String) (v : JVal)
    (h : (k, v) ∈ m) : (lookupA m k).isSome := by
  induction m with
  | nil => cases h
  | cons a rest ih =>
    obtain ⟨ka, va⟩ := a
    by_cases hk : ka = k
    · simp [lookupA, hk]
    · simp [lookupA, hk]
      rcases List.mem_cons.mp h with h1 | h1
      · cases h1; simp at hk
      · exact ih h1

/-!
SettingsStore model (db_json.py).

`_ensure_user_defaults(users, uid, username)` normalizes a single profile in
the users mapping: it fills missing top-level fields and missing settings keys
with fixed defaults.  File I/O around it (load_users/save_users) is identity
on the mapping and not modelled.  A profile value that is not a dict makes the
Python function raise (attribute access on a non-dict); this is the `none`
result of the embedding.
-/

/-- The fixed settings default table of db_json.py (lines 68-82). -/
def settings_defaults : List (String × JVal) :=
  [("USE_RSI", .bool true), ("RSI_PERIOD", .num 14), ("RSI_OVERSOLD", .num 40),
   ("RSI_OVERBOUGHT", .num 60),
   ("USE_EMA", .bool true), ("FAST_MA", .num 50), ("SLOW_MA", .num 200),
   ("USE_MACD", .bool true), ("MACD_FAST", .num 8), ("MACD_SLOW", .num 21),
   ("MACD_SIGNAL", .num 5),
   ("USE_OI", .bool false), ("OI_WINDOW", .num 3), ("OI_MIN_CHANGE_PCT", .num 5),
   ("OI_DIRECTION", .str "up"),
   ("BUY_CONFIRMATION_RATIO", .num 0.66), ("SELL_CONFIRMATION_RATIO", .num 0.33),
   ("ORDER_PERCENT", .num 10), ("ORDER_SIZE_USD", .num 0),
   ("TP_PCT", .num 1), ("SL_PCT", .num 0.5),
   ("QTY_PRECISION", .num 6),
   ("MIN_NOTIONAL", .num 5),
   ("SYMBOLS", .arr [.str "BTCUSDT"]),
   ("TESTNET", .bool true),
   ("DRY_RUN", .bool true),
   ("DISABLED_AUTH", .bool false)]

/-- The `for k, v in defaults.items(): u["settings"].setdefault(k, v)` loop. -/
def applyDefaults (s : List (String × JVal)) : List (String × JVal) :=
  settings_defaults.foldl (fun acc kv => setdefaultA acc kv.1 kv.2) s

/-- The four top-level `u.setdefault(...)` calls (db_json.py lines 62-65). -/
def ensure_top_fields (uid : String) (username : Option String)
    (u : List (String × JVal)) : List (String × JVal) :=
  setdefaultA (setdefaultA (setdefaultA (setdefaultA u
    "username" (.str (username.getD ("user_" ++ uid))))
    "api_key" (.str ""))
    "api_secret" (.str ""))
    "sub_until" .null

/-- db_json.py lines 84-85: `if "settings" not in u or not isinstance(...):
u["settings"] = ...` (an empty dict).  Returns the profile together with the
settings dict the subsequent loop mutates. -/
def ensure_settings (u : List (String × JVal)) :
    List (String × JVal) × List (String × JVal) :=
  match lookupA u "settings" with
  | some (.obj s) => (u, s)
  | _ => (dsetA u "settings" (.obj []), [])

/-- Body of db_json._ensure_user_defaults on one profile dict: top-level
setdefaults, settings normalization, the defaults loop (whose in-place
mutation of the settings dict is the `dsetA _ "settings"` write-back), and
the final `u.setdefault("_positions", ...)`. -/
def ensure_profile (uid : String) (username : Option String)
    (u : List (String × JVal)) : List (String × JVal) :=
  let u1 := ensure_top_fields uid username u
  let us := ensure_settings u1
  setdefaultA (dsetA us.1 "settings" (.obj (applyDefaults us.2))) "_positions" (.obj [])

/-- db_json._ensure_user_defaults (lines 55-91), for one uid already in string
form.  Returns `none` when the stored profile value is not a dict (the Python
code would raise there). -/
def ensure_user_defaults (users : List (String × JVal)) (uid : String)
    (username : Option String) : Option (List (String × JVal)) :=
  let users1 := match lookupA users uid with
    | none => dsetA users uid (.obj [])
    | some _ => users
  match lookupA users1 uid with
  | some (.obj u) => some (dsetA users1 uid (.obj (ensure_profile uid username u)))
  | _ => none

/-- The default a missing top-level profile field receives, keyed by field
name (`none` for keys _ensure_user_defaults does not touch). -/
def topDefault (username : Option String) (uid k : String) : Option JVal :=
  if k = "username" then some (.str (username.getD ("user_" ++ uid)))
  else if k = "api_key" then some (.str "")
  else if k = "api_secret" then some (.str "")
  else if k = "sub_until" then some .null
  else if k = "_positions" then some (.obj []) else none

theorem lookupA_foldSD (l : List (String × JVal)) (s : List (String × JVal))
    (k : String) :
    lookupA (l.foldl (fun acc kv => setdefaultA acc kv.1 kv.2) s) k =
      match lookupA s k with
      | some w => some w
      | none => lookupA l k := by
  induction l generalizing s with
  | nil => cases h : lookupA s k <;> simp [lookupA, h]
  | cons kv rest ih =>
    obtain ⟨k0, v0⟩ := kv
    simp only [List.foldl_cons, ih]
    rw [lookupA_setdefaultA]
    cases h : lookupA s k with
    | some w => simp
    | none =>
      simp only [lookupA]
      by_cases hk : k = k0
      · subst hk; simp
      · rw [if_neg hk, if_neg (fun hh => hk hh.symm)]

theorem foldSD_of_allPresent (l : List (String × JVal)) (s : List (String × JVal))
    (h : ∀ kv ∈ l, (lookupA s kv.1).isSome) :
    l.foldl (fun acc kv => setdefaultA acc kv.1 kv.2) s = s := by
  induction l with
  | nil => rfl
  | cons kv rest ih =>
    have h0 : (lookupA s kv.1).isSome := h kv (List.mem_cons_self kv rest)
    rw [List.foldl_cons, setdefaultA_of_isSome _ _ _ h0]
    exact ih (fun kv2 hm => h kv2 (List.mem_cons_of_mem kv hm))

theorem applyDefaults_idem (s : List (String × JVal)) :
    applyDefaults (applyDefaults s) = applyDefaults s := by
  apply foldSD_of_allPresent
  intro kv hm
  have hlk : (lookupA settings_defaults kv.1).isSome :=
    lookupA_mem_isSome _ _ _ (by exact hm)
  rw [show applyDefaults s =
      settings_defaults.foldl (fun acc kv => setdefaultA acc kv.1 kv.2) s from rfl,
    lookupA_foldSD]
  cases h : lookupA s kv.1 with
  | some w => simp
  | none => simpa using hlk

theorem lookupA_ensure_top (uid : String) (un : Option String)
    (u : List (String × JVal)) (k : String) :
    lookupA (ensure_top_fields uid un u) k =
      match lookupA u k with
      | some w => some w
      | none =>
        if k = "username" then some (.str (un.getD ("user_" ++ uid)))
        else if k = "api_key" then some (.str "")
        else if k = "api_secret" then some (.str "")
        else if k = "sub_until" then some .null
        else none := by
  simp only [ensure_top_fields, lookupA_setdefaultA]
  cases h : lookupA u k with
  | some w => simp
  | none =>
    by_cases k1 : k = "username"
    · simp [k1]
    · by_cases k2 : k = "api_key"
      · simp [k2]
      · by_cases k3 : k = "api_secret"
        · simp [k3]
        · by_cases k4 : k = "sub_until"
          · simp [k4]
          · simp [k1, k2, k3, k4]

theorem topDefault_chain (uid : String) (un : Option String)
    (u : List (String × JVal)) (k : String) :
    (match lookupA (ensure_top_fields uid un u) k with
      | some w => some w
      | none => if k = "_positions" then some (JVal.obj []) else none) =
      match lookupA u k with
      | some w => some w
      | none => topDefault un uid k := by
  rw [lookupA_ensure_top]
  cases h : lookupA u k with
  | some w => simp
  | none =>
    simp only [topDefault]
    by_cases k1 : k = "username"
    · simp [k1]
    · by_cases k2 : k = "api_key"
      · simp [k1, k2]
      · by_cases k3 : k = "api_secret"
        · simp [k1, k2, k3]
        · by_cases k4 : k = "sub_until"
          · simp [k1, k2, k3, k4]
          · by_cases k5 : k = "_positions"
            · simp [k1, k2, k3, k4, k5]
            · simp [k1, k2, k3, k4, k5]

theorem lookupA_ensure_profile (uid : String) (un : Option String)
    (u s : List (String × JVal)) (k : String)
    (hs : lookupA u "settings" = some (.obj s) ∨
      (lookupA u "settings" = none ∧ s = [])) :
    lookupA (ensure_profile uid un u) k =
      if k = "settings" then some (.obj (applyDefaults s))
      else
        match lookupA u k with
        | some w => some w
        | none => topDefault un uid k := by
  have htop : lookupA (ensure_top_fields uid un u) "settings" = lookupA u "settings" := by
    rw [lookupA_ensure_top]
    cases h : lookupA u "settings" with
    | some w => simp
    | none => simp
  rcases hs with h1 | ⟨h1, h2⟩
  · have hus : ensure_settings (ensure_top_fields uid un u) =
        (ensure_top_fields uid un u, s) := by
      unfold ensure_settings
      rw [htop, h1]
    simp only [ensure_profile, hus, lookupA_setdefaultA, lookupA_dsetA]
    by_cases hk : k = "settings"
    · simp [hk]
    · rw [if_neg hk, if_neg hk]
      exact topDefault_chain uid un u k
  · subst h2
    have hus : ensure_settings (ensure_top_fields uid un u) =
        (dsetA (ensure_top_fields uid un u) "settings" (.obj []), []) := by
      unfold ensure_settings
      rw [htop, h1]
    simp only [ensure_profile, hus, lookupA_setdefaultA, lookupA_dsetA]
    by_cases hk : k = "settings"
    · simp [hk]
    · rw [if_neg hk, if_neg hk, if_neg hk]
      exact topDefault_chain uid un u k

theorem lookupA_ensure_settings_fst (w : List (String × JVal)) (k : String)
    (hk : ¬k = "settings") : lookupA (ensure_settings w).1 k = lookupA w k := by
  unfold ensure_settings
  cases h : lookupA w "settings" with
  | none => simp only; rw [lookupA_dsetA, if_neg hk]
  | some v =>
    cases v with
    | obj s => simp
    | null => simp only; rw [lookupA_dsetA, if_neg hk]
    | bool b => simp only; rw [lookupA_dsetA, if_neg hk]
    | num q => simp only; rw [lookupA_dsetA, if_neg hk]
    | str s => simp only; rw [lookupA_dsetA, if_neg hk]
    | arr l => simp only; rw [lookupA_dsetA, if_neg hk]

theorem isSome_ensure_top (uid : String) (un : Option String)
    (u : List (String × JVal)) (k : String)
    (hin : k = "username" ∨ k = "api_key" ∨ k = "api_secret" ∨ k = "sub_until") :
    (lookupA (ensure_top_fields uid un u) k).isSome := by
  rw [lookupA_ensure_top]
  cases h : lookupA u k with
  | some w => simp
  | none =>
    rcases hin with h1 | h1 | h1 | h1 <;> subst h1 <;> simp

theorem ensure_profile_shape (uid : String) (un : Option String)
    (u : List (String × JVal)) :
    ∃ s6, lookupA (ensure_profile uid un u) "settings" = some (.obj (applyDefaults s6)) ∧
      (lookupA (ensure_profile uid un u) "username").isSome ∧
      (lookupA (ensure_profile uid un u) "api_key").isSome ∧
      (lookupA (ensure_profile uid un u) "api_secret").isSome ∧
      (lookupA (ensure_profile uid un u) "sub_until").isSome ∧
      (lookupA (ensure_profile uid un u) "_positions").isSome := by
  refine ⟨(ensure_settings (ensure_top_fields uid un u)).2, ?_, ?_, ?_, ?_, ?_, ?_⟩
  · simp only [ensure_profile, lookupA_setdefaultA, lookupA_dsetA]
    simp
  all_goals simp only [ensure_profile, lookupA_setdefaultA, lookupA_dsetA]
  · rw [if_neg (by simp : ¬("username" : String) = "settings"),
      lookupA_ensure_settings_fst _ _ (by simp)]
    have := isSome_ensure_top uid un u "username" (Or.inl rfl)
    cases h : lookupA (ensure_top_fields uid un u) "username" with
    | some w => simp
    | none => rw [h] at this; cases this
  · rw [if_neg (by simp : ¬("api_key" : String) = "settings"),
      lookupA_ensure_settings_fst _ _ (by simp)]
    have := isSome_ensure_top uid un u "api_key" (Or.inr (Or.inl rfl))
    cases h : lookupA (ensure_top_fields uid un u) "api_key" with
    | some w => simp
    | none => rw [h] at this; cases this
  · rw [if_neg (by simp : ¬("api_secret" : String) = "settings"),
      lookupA_ensure_settings_fst _ _ (by simp)]
    have := isSome_ensure_top uid un u "api_secret" (Or.inr (Or.inr (Or.inl rfl)))
    cases h : lookupA (ensure_top_fields uid un u) "api_secret" with
    | some w => simp
    | none => rw [h] at this; cases this
  · rw [if_neg (by simp : ¬("sub_until" : String) = "settings"),
      lookupA_ensure_settings_fst _ _ (by simp)]
    have := isSome_ensure_top uid un u "sub_until" (Or.inr (Or.inr (Or.inr rfl)))
    cases h : lookupA (ensure_top_fields uid un u) "sub_until" with
    | some w => simp
    | none => rw [h] at this; cases this
  · cases h : lookupA (ensure_settings (ensure_top_fields uid un u)).1 "_positions" with
    | some w => simp [h]
    | none => simp [h]

theorem ensure_profile_noop (uid : String) (un : Option String)
    (u : List (String × JVal))
    (h1 : (lookupA u "username").isSome) (h2 : (lookupA u "api_key").isSome)
    (h3 : (lookupA u "api_secret").isSome) (h4 : (lookupA u "sub_until").isSome)
    (h5 : ∃ s, lookupA u "settings" = some (.obj s) ∧ applyDefaults s = s)
    (h6 : (lookupA u "_positions").isSome) :
    ensure_profile uid un u = u := by
  obtain ⟨s, hs, hfix⟩ := h5
  have htop : ensure_top_fields uid un u = u := by
    unfold ensure_top_fields
    rw [setdefaultA_of_isSome _ _ _ h1, setdefaultA_of_isSome _ _ _ h2,
      setdefaultA_of_isSome _ _ _ h3, setdefaultA_of_isSome _ _ _ h4]
  have hus : ensure_settings u = (u, s) := by
    unfold ensure_settings; rw [hs]
  have hexp : ensure_profile uid un u =
      setdefaultA (dsetA (ensure_settings (ensure_top_fields uid un u)).1 "settings"
        (.obj (applyDefaults (ensure_settings (ensure_top_fields uid un u)).2)))
        "_positions" (.obj []) := rfl
  rw [hexp, htop, hus]
  show setdefaultA (dsetA u "settings" (.obj (applyDefaults s))) "_positions" (.obj []) = u
  rw [hfix, dsetA_eq_self _ _ _ hs, setdefaultA_of_isSome _ _ _ h6]

theorem ensure_second_run (uid : String) (un : Option String)
    (w u : List (String × JVal)) :
    ensure_user_defaults (dsetA w uid (.obj (ensure_profile uid un u))) uid un =
      some (dsetA w uid (.obj (ensure_profile uid un u))) := by
  have hlk : lookupA (dsetA w uid (.obj (ensure_profile uid un u))) uid =
      some (.obj (ensure_profile uid un u)) := by
    rw [lookupA_dsetA]; simp
  obtain ⟨s6, hset, ha, hb, hc, hd, he⟩ := ensure_profile_shape uid un u
  have hnoop : ensure_profile uid un (ensure_profile uid un u) = ensure_profile uid un u :=
    ensure_profile_noop uid un _ ha hb hc hd
      ⟨applyDefaults s6, hset, applyDefaults_idem s6⟩ he
  simp only [ensure_user_defaults, hlk]
  rw [hnoop, dsetA_eq_self _ _ _ hlk]

/-- C6: profile normalization is idempotent: whenever `_ensure_user_defaults`
turns a users mapping into `users2`, applying it again to `users2` returns
`users2` unchanged (structural equality, which implies Python dict equality). -/
theorem ensure_defaults_idempotent (users : List (String × JVal)) (uid : String)
    (un : Option String) (users2 : List (String × JVal))
    (h : ensure_user_defaults users uid un = some users2) :
    ensure_user_defaults users2 uid un = some users2 := by
  simp only [ensure_user_defaults] at h
  cases h0 : lookupA users uid with
  | none =>
    have hlk : lookupA (dsetA users uid (.obj [])) uid = some (.obj []) := by
      rw [lookupA_dsetA]; simp
    simp only [h0, hlk] at h
    injection h with h2
    rw [← h2]
    exact ensure_second_run uid un (dsetA users uid (.obj [])) []
  | some v =>
    cases v with
    | obj u =>
      simp only [h0] at h
      injection h with h2
      rw [← h2]
      exact ensure_second_run uid un users u
    | null => simp [h0] at h
    | bool b => simp [h0] at h
    | num q => simp [h0] at h
    | str s => simp [h0] at h
    | arr l => simp [h0] at h

/-- A fully-populated single-user mapping used to witness idempotence. -/
def usersComplete : List (String × JVal) :=
  [("1", .obj [("username", .str "alice"), ("api_key", .str ""),
    ("api_secret", .str ""), ("sub_until", .null),
    ("settings", .obj settings_defaults), ("_positions", .obj [])])]

/-- Witness for C6 at a concrete mapping. -/
theorem ensure_defaults_idempotent_witness :
    ensure_user_defaults usersComplete "1" none = some usersComplete :=
  ensure_defaults_idempotent usersComplete "1" none usersComplete (by rfl)

/-- C5: normalization fills exactly the missing keys.  For a profile stored
under `uid` (with its settings either a dict or absent), `_ensure_user_defaults`
succeeds and produces a profile in which: every present non-settings top-level
value is untouched; every present settings key keeps its value; every missing
settings key that has a documented default receives exactly that default;
settings keys outside the default table stay absent; top-level keys outside
the defaulted set stay absent; and missing defaulted top-level keys receive
their documented default (`topDefault`). -/
theorem ensure_defaults_fills_missing (users : List (String × JVal))
    (uid : String) (un : Option String) (u s : List (String × JVal))
    (hu : lookupA users uid = some (.obj u))
    (hs : lookupA u "settings" = some (.obj s) ∨
      (lookupA u "settings" = none ∧ s = [])) :
    ∃ users2 u2 s2,
      ensure_user_defaults users uid un = some users2 ∧
      lookupA users2 uid = some (.obj u2) ∧
      lookupA u2 "settings" = some (.obj s2) ∧
      (∀ k w, ¬k = "settings" → lookupA u k = some w → lookupA u2 k = some w) ∧
      (∀ k w, lookupA s k = some w → lookupA s2 k = some w) ∧
      (∀ k v, lookupA s k = none → lookupA settings_defaults k = some v →
        lookupA s2 k = some v) ∧
      (∀ k, lookupA s k = none → lookupA settings_defaults k = none →
        lookupA s2 k = none) ∧
      (∀ k v, lookupA u k = none → topDefault un uid k = some v →
        lookupA u2 k = some v) ∧
      (∀ k, lookupA u k = none → topDefault un uid k = none → ¬k = "settings" →
        lookupA u2 k = none) := by
  refine ⟨dsetA users uid (.obj (ensure_profile uid un u)), ensure_profile uid un u,
    applyDefaults s, ?_, ?_, ?_, ?_, ?_, ?_, ?_, ?_, ?_⟩
  · simp only [ensure_user_defaults, hu]
  · rw [lookupA_dsetA]; simp
  · rw [lookupA_ensure_profile uid un u s "settings" hs]; simp
  · intro k w hk hw
    rw [lookupA_ensure_profile uid un u s k hs, if_neg hk, hw]
  · intro k w hw
    have ha := lookupA_foldSD settings_defaults s k
    show lookupA (applyDefaults s) k = some w
    rw [show applyDefaults s =
      settings_defaults.foldl (fun acc kv => setdefaultA acc kv.1 kv.2) s from rfl,
      ha, hw]
  · intro k v h1 h2
    have ha := lookupA_foldSD settings_defaults s k
    show lookupA (applyDefaults s) k = some v
    rw [show applyDefaults s =
      settings_defaults.foldl (fun acc kv => setdefaultA acc kv.1 kv.2) s from rfl,
      ha, h1, h2]
  · intro k h1 h2
    have ha := lookupA_foldSD settings_defaults s k
    show lookupA (applyDefaults s) k = none
    rw [show applyDefaults s =
      settings_defaults.foldl (fun acc kv => setdefaultA acc kv.1 kv.2) s from rfl,
      ha, h1, h2]
  · intro k v h1 h2
    have hk : ¬k = "settings" := by
      intro hc; subst hc
      simp [topDefault] at h2
    rw [lookupA_ensure_profile uid un u s k hs, if_neg hk, h1, h2]
  · intro k h1 h2 hk
    rw [lookupA_ensure_profile uid un u s k hs, if_neg hk, h1, h2]

/-- A single-user mapping whose only settings key is RSI_PERIOD = 21 (the
example used by the specification). -/
def usersRsi : List (String × JVal) :=
  [("1", .obj [("settings", .obj [("RSI_PERIOD", .num 21)])])]

/-- Witness for C5 at the specification example: a profile whose settings
contain only RSI_PERIOD = 21. -/
theorem ensure_defaults_fills_missing_witness :
    ∃ users2 u2 s2,
      ensure_user_defaults usersRsi "1" none = some users2 ∧
      lookupA users2 "1" = some (.obj u2) ∧
      lookupA u2 "settings" = some (.obj s2) ∧
      (∀ k w, ¬k = "settings" →
        lookupA [("settings", JVal.obj [("RSI_PERIOD", JVal.num 21)])] k = some w →
        lookupA u2 k = some w) ∧
      (∀ k w, lookupA [("RSI_PERIOD", JVal.num 21)] k = some w → lookupA s2 k = some w) ∧
      (∀ k v, lookupA [("RSI_PERIOD", JVal.num 21)] k = none →
        lookupA settings_defaults k = some v → lookupA s2 k = some v) ∧
      (∀ k, lookupA [("RSI_PERIOD", JVal.num 21)] k = none →
        lookupA settings_defaults k = none → lookupA s2 k = none) ∧
      (∀ k v, lookupA [("settings", JVal.obj [("RSI_PERIOD", JVal.num 21)])] k = none →
        topDefault none "1" k = some v → lookupA u2 k = some v) ∧
      (∀ k, lookupA [("settings", JVal.obj [("RSI_PERIOD", JVal.num 21)])] k = none →
        topDefault none "1" k = none → ¬k = "settings" → lookupA u2 k = none) :=
  ensure_defaults_fills_missing usersRsi "1" none
    [("settings", JVal.obj [("RSI_PERIOD", JVal.num 21)])]
    [("RSI_PERIOD", JVal.num 21)] (by rfl) (Or.inl (by rfl))

/-!
AuthHealthMonitor model (trading_core.py run_once, lines 380-454, and
try_alternate_env_and_fix_user, lines 351-378).

The exchange is abstracted by the response `get_balance_usdt()` would return:
either a numeric balance or a decoded error/raw envelope (a dict).  The client
construction itself performs no network calls.  Time and ISO-timestamp parsing
are parameters (`parseIso` returning `none` models the exception branch of
`datetime.fromisoformat`).  `save_users` persists the full in-memory mapping;
since in run_once every mutation is immediately followed by `save_users`, the
mapping returned by the embedding is exactly the persisted state.  Exceptions
that the Python code does not catch are the `.error` result.
-/

/-- The value `get_balance_usdt` hands back: a number (int/float) or the
decoded response dict. -/
inductive BalanceResp where
  | num (q : ℚ) : BalanceResp
  | dict (d : List (String × JVal)) : BalanceResp

/-- run_once lines 427-431: classify a get_balance response as an auth
failure.  `rc = str(resp.get("retCode", "") or resp.get("code", ""))`,
`rm = str(resp.get("retMsg", "") or resp.get("message", ""))`; failure iff
`rc == "401"` or `rm.lower()` contains one of the markers. -/
def classifyAuthFailed : BalanceResp → Bool
  | .num _ => false
  | .dict d =>
    let rcv := (lookupA d "retCode").getD (.str "")
    let rcv := if truthy rcv then rcv else (lookupA d "code").getD (.str "")
    let rc := pyStr rcv
    let rmv := (lookupA d "retMsg").getD (.str "")
    let rmv := if truthy rmv then rmv else (lookupA d "message").getD (.str "")
    let rm := strLower (pyStr rmv)
    rc == "401" || strHasSub rm "unauthor" || strHasSub rm "invalid api" ||
      strHasSub rm "invalid apikey"

/-- run_once lines 398-404: the subscription gate.  The user is skipped iff
`sub_until` is truthy, `datetime.fromisoformat(str(sub_until))` parses, and
the parsed time is before now; a parse failure falls through (`except: pass`). -/
def subSkip (parseIso : String → Option ℚ) (now : ℚ) (v : JVal) : Bool :=
  if truthy v then
    match parseIso (pyStr v) with
    | some t => decide (t < now)
    | none => false
  else false

/-- run_once line 434: `u.get("_auth_failures", 0) + 1` must read a number
(missing counts as 0, Python bools add as 0/1); any other stored value makes
the addition raise, which is `none` here. -/
def authFailuresVal (u : List (String × JVal)) : Option ℚ :=
  match lookupA u "_auth_failures" with
  | none => some 0
  | some (.num q) => some q
  | some (.bool b) => some (if b then 1 else 0)
  | some _ => none

/-- Python `int(uid_str)` on the strings isIntStr accepts: optional sign,
then digits. -/
def strToInt (s : String) : ℤ :=
  match s.data with
  | '-' :: rest => -(digitsToNat rest : ℤ)
  | '+' :: rest => (digitsToNat rest : ℤ)
  | ds => (digitsToNat ds : ℤ)

/-- Python `str(int(uid_str))`: the canonical decimal key under which
try_alternate_env_and_fix_user indexes the users mapping
(trading_core.py line 371 reads `users[str(uid)]` with `uid = int(uid_str)`
from line 391).  For a non-canonical stored key such as "01" or "+1" this
differs from the iterated key. -/
def canonUid (s : String) : String := intStr (strToInt s)

/-- try_alternate_env_and_fix_user (lines 351-378) on the users mapping;
`uid` here is the canonical key `str(uid)` the function itself computes.
`altResp = none` models an exception raised by the client construction or
the balance call inside the try (swallowed, returning False).  When the
alternate environment returns a non-negative int/float balance the code
mutates `users[str(uid)]` and saves; a missing canonical key raises
KeyError, a non-dict entry raises AttributeError at `.get`, and a present
truthy non-dict settings value raises TypeError at the item assignment —
each is swallowed by the enclosing except, leaving the mapping unchanged
and returning False.  (JSON-loaded mappings contain no aliased dicts, so
distinct keys hold independent values.) -/
def try_alternate_env_and_fix_user (users : List (String × JVal)) (uid : String)
    (testnet : Bool) (altResp : Option BalanceResp) :
    List (String × JVal) × Bool :=
  let alt := !testnet
  match altResp with
  | none => (users, false)
  | some (.dict _) => (users, false)
  | some (.num q) =>
    if 0 ≤ q then
      match lookupA users uid with
      | none => (users, false)
      | some (.obj v) =>
        match lookupA v "settings" with
        | some (.obj s) =>
          (dsetA users uid
            (.obj (dsetA v "settings" (.obj (dsetA s "TESTNET" (.bool alt))))), true)
        | none =>
          (dsetA users uid (.obj (dsetA (dsetA v "settings" (.obj []))
            "settings" (.obj (dsetA [] "TESTNET" (.bool alt))))), true)
        | some _ => (users, false)
      | some _ => (users, false)
    else (users, false)

/-- run_once lines 440-443: `u.setdefault("settings", ...)["DISABLED_AUTH"] =
True`; raises (`.error`) when a present settings value is not a dict. -/
def disableAuth (u : List (String × JVal)) : Except Unit (List (String × JVal)) :=
  match lookupA u "settings" with
  | some (.obj s) => .ok (dsetA u "settings" (.obj (dsetA s "DISABLED_AUTH" (.bool true))))
  | none =>
    .ok (dsetA (setdefaultA u "settings" (.obj [])) "settings"
      (.obj (dsetA [] "DISABLED_AUTH" (.bool true))))
  | some _ => .error ()

/-- run_once lines 394-395: `settings = (u.get("settings") or ...) or ...`
(the fallbacks are fresh empty dicts) followed by `settings.get(...)`, which
raises on a truthy non-dict value.  A stored dict is used as is (a falsy, i.e.
empty, stored dict is replaced by an equal fresh empty dict); any other falsy
value becomes the empty dict; a truthy non-dict raises at `settings.get`. -/
def extract_settings (u : List (String × JVal)) :
    Except Unit (List (String × JVal)) :=
  match (lookupA u "settings").getD .null with
  | .obj s => .ok s
  | v => if truthy v then .error () else .ok []

/-- The per-user body of run_once (lines 394-447).  `uid` is the iterated
users.json key and `u` its profile dict; mutations through the iterated
object land at key `uid`, while the alternate-environment probe indexes the
mapping with the canonical key `canonUid uid` (equal to `uid` exactly when
the stored key is canonical).  `envf` gives the get_balance response as a
function of the client's testnet flag; `altf` the probe outcome as a
function of the flipped flag (`none` = exception inside the probe).  The
probe (counter exactly 1) and the disable step (counter at least 3) are
mutually exclusive, so the latter reads the profile as written by the
increment.  The result carries the updated (and, as every mutation is
immediately followed by save_users, persisted) users mapping, the number of
primary get_balance calls made, and the list of environment flags probed.
`decode_api_key` is the identity: db_json.py defines no `decode_key`, so
the fallback returns its argument (an empty/falsy value stays empty). -/
def run_once_user (parseIso : String → Option ℚ) (now : ℚ)
    (envf : Bool → BalanceResp) (altf : Bool → Option BalanceResp)
    (users : List (String × JVal)) (uid : String) (u : List (String × JVal)) :
    Except Unit (List (String × JVal) × ℕ × List Bool) :=
  match extract_settings u with
  | .error e => .error e
  | .ok settings =>
    if truthy ((lookupA settings "DISABLED_AUTH").getD (.bool false)) then
      .ok (users, 0, [])
    else if subSkip parseIso now ((lookupA u "sub_until").getD .null) then
      .ok (users, 0, [])
    else if !truthy ((lookupA u "api_key").getD (.str "")) ||
        !truthy ((lookupA u "api_secret").getD (.str "")) then
      .ok (users, 0, [])
    else
      let testnet := truthy ((lookupA settings "TESTNET").getD (.bool true))
      let resp := envf testnet
      if classifyAuthFailed resp then
        match authFailuresVal u with
        | none => .error ()
        | some n =>
          let u1 := dsetA u "_auth_failures" (.num (n + 1))
          let users1 := dsetA users uid (.obj u1)
          if n + 1 = 1 then
            .ok ((try_alternate_env_and_fix_user users1 (canonUid uid) testnet
              (altf (!testnet))).1, 1, [!testnet])
          else if 3 ≤ n + 1 then
            match disableAuth u1 with
            | .ok u3 => .ok (dsetA users1 uid (.obj u3), 1, [])
            | .error e => .error e
          else .ok (users1, 1, [])
      else .ok (dsetA users uid (.obj (dsetA u "_auth_failures" (.num 0))), 1, [])

/-- The run_once loop over the snapshot of user ids (lines 389-454).  A uid
that `int()` rejects is skipped (`continue`); a stored profile value that is
not a dict raises at `u.get` and aborts the whole loop; any `.error` from the
per-user body likewise propagates out of run_once (there is no per-user
try/except around the body). -/
def run_once_loop (parseIso : String → Option ℚ) (now : ℚ)
    (env : String → Bool → BalanceResp)
    (altE : String → Bool → Option BalanceResp) :
    List String → List (String × JVal) → Except Unit (List (String × JVal))
  | [], users => .ok users
  | uid :: rest, users =>
    if isIntStr uid then
      match lookupA users uid with
      | some (.obj u) =>
        match run_once_user parseIso now (env uid) (altE uid) users uid u with
        | .error e => .error e
        | .ok r => run_once_loop parseIso now env altE rest r.1
      | some _ => .error ()
      | none => run_once_loop parseIso now env altE rest users
    else run_once_loop parseIso now env altE rest users

/-- run_once on a users mapping: iterate the per-user body over the snapshot
`list(users.items())` of user ids.  The returned mapping is the persisted
state after the cycle (every mutation in the body is followed by save_users). -/
def run_once (parseIso : String → Option ℚ) (now : ℚ)
    (env : String → Bool → BalanceResp)
    (altE : String → Bool → Option BalanceResp)
    (users : List (String × JVal)) : Except Unit (List (String × JVal)) :=
  run_once_loop parseIso now env altE (users.map Prod.fst) users

theorem extract_settings_of_obj (u s : List (String × JVal))
    (h : lookupA u "settings" = some (.obj s)) : extract_settings u = .ok s := by
  unfold extract_settings
  rw [h]
  rfl

theorem authFailuresVal_num (u : List (String × JVal)) (q : ℚ)
    (h : lookupA u "_auth_failures" = some (.num q)) : authFailuresVal u = some q := by
  unfold authFailuresVal
  rw [h]

theorem dsetA_map_fst_of_isSome (m : List (String × JVal)) (k : String) (v : JVal)
    (h : (lookupA m k).isSome) : (dsetA m k v).map Prod.fst = m.map Prod.fst := by
  induction m with
  | nil => rw [lookupA] at h; cases h
  | cons a rest ih =>
    obtain ⟨ka, va⟩ := a
    rw [lookupA] at h
    by_cases hk : ka = k
    · subst hk
      simp [dsetA]
    · rw [if_neg hk] at h
      simp [dsetA, hk, ih h]

theorem tryAlt_map_fst (users : List (String × JVal)) (c : String) (t : Bool)
    (a : Option BalanceResp) :
    (try_alternate_env_and_fix_user users c t a).1.map Prod.fst =
      users.map Prod.fst := by
  cases a with
  | none => rfl
  | some r =>
    cases r with
    | dict d => rfl
    | num q =>
      by_cases hq : (0 : ℚ) ≤ q
      · cases hv : lookupA users c with
        | none => simp only [try_alternate_env_and_fix_user, if_pos hq, hv]
        | some v =>
          have hs : (lookupA users c).isSome := by rw [hv]; rfl
          cases v with
          | obj w =>
            cases hw : lookupA w "settings" with
            | none =>
              simp only [try_alternate_env_and_fix_user, if_pos hq, hv, hw]
              exact dsetA_map_fst_of_isSome users c _ hs
            | some sv =>
              cases sv with
              | obj s2 =>
                simp only [try_alternate_env_and_fix_user, if_pos hq, hv, hw]
                exact dsetA_map_fst_of_isSome users c _ hs
              | null => simp only [try_alternate_env_and_fix_user, if_pos hq, hv, hw]
              | bool b => simp only [try_alternate_env_and_fix_user, if_pos hq, hv, hw]
              | num q2 => simp only [try_alternate_env_and_fix_user, if_pos hq, hv, hw]
              | str s2 => simp only [try_alternate_env_and_fix_user, if_pos hq, hv, hw]
              | arr l2 => simp only [try_alternate_env_and_fix_user, if_pos hq, hv, hw]
          | null => simp only [try_alternate_env_and_fix_user, if_pos hq, hv]
          | bool b => simp only [try_alternate_env_and_fix_user, if_pos hq, hv]
          | num q2 => simp only [try_alternate_env_and_fix_user, if_pos hq, hv]
          | str s2 => simp only [try_alternate_env_and_fix_user, if_pos hq, hv]
          | arr l2 => simp only [try_alternate_env_and_fix_user, if_pos hq, hv]
      · simp only [try_alternate_env_and_fix_user, if_neg hq]

theorem tryAlt_flip_eq (users : List (String × JVal)) (c : String) (t : Bool)
    (q : ℚ) (v sv : List (String × JVal)) (hq : 0 ≤ q)
    (hv : lookupA users c = some (.obj v))
    (hsv : lookupA v "settings" = some (.obj sv)) :
    try_alternate_env_and_fix_user users c t (some (.num q)) =
      (dsetA users c
        (.obj (dsetA v "settings" (.obj (dsetA sv "TESTNET" (.bool !t))))), true) := by
  simp only [try_alternate_env_and_fix_user, if_pos hq, hv, hsv]

theorem tryAlt_keyabsent (users : List (String × JVal)) (c : String) (t : Bool)
    (q : ℚ) (hq : 0 ≤ q) (hv : lookupA users c = none) :
    try_alternate_env_and_fix_user users c t (some (.num q)) = (users, false) := by
  simp only [try_alternate_env_and_fix_user, if_pos hq, hv]

theorem tryAlt_entry_obj (users : List (String × JVal)) (c : String) (t : Bool)
    (a : Option BalanceResp) (uid : String) (u1 : List (String × JVal))
    (hu : lookupA users uid = some (.obj u1)) :
    ∃ u2, lookupA (try_alternate_env_and_fix_user users c t a).1 uid =
        some (.obj u2) ∧
      (∀ k, ¬k = "settings" → lookupA u2 k = lookupA u1 k) ∧
      (∀ s1, lookupA u1 "settings" = some (.obj s1) →
        ∃ s2, lookupA u2 "settings" = some (.obj s2) ∧
          lookupA s2 "DISABLED_AUTH" = lookupA s1 "DISABLED_AUTH") := by
  have base : ∃ u2, lookupA users uid = some (.obj u2) ∧
      (∀ k, ¬k = "settings" → lookupA u2 k = lookupA u1 k) ∧
      (∀ s1, lookupA u1 "settings" = some (.obj s1) →
        ∃ s2, lookupA u2 "settings" = some (.obj s2) ∧
          lookupA s2 "DISABLED_AUTH" = lookupA s1 "DISABLED_AUTH") :=
    ⟨u1, hu, fun _ _ => rfl, fun s1 h1 => ⟨s1, h1, rfl⟩⟩
  cases a with
  | none => exact base
  | some r =>
    cases r with
    | dict d => exact base
    | num q =>
      by_cases hq : (0 : ℚ) ≤ q
      · cases hv : lookupA users c with
        | none =>
          rw [tryAlt_keyabsent users c t q hq hv]
          exact base
        | some v =>
          cases v with
          | obj w =>
            cases hw : lookupA w "settings" with
            | some sv =>
              cases sv with
              | obj s2 =>
                simp only [tryAlt_flip_eq users c t q w s2 hq hv hw]
                by_cases hc : uid = c
                · subst hc
                  rw [hu] at hv
                  injection hv with hv2
                  injection hv2 with hv3
                  subst hv3
                  refine ⟨dsetA u1 "settings" (.obj (dsetA s2 "TESTNET" (.bool !t))),
                    ?_, ?_, ?_⟩
                  · rw [lookupA_dsetA, if_pos rfl]
                  · intro k hk
                    rw [lookupA_dsetA, if_neg hk]
                  · intro s1 h1
                    rw [hw] at h1
                    injection h1 with h12
                    injection h12 with h13
                    refine ⟨dsetA s2 "TESTNET" (.bool !t), ?_, ?_⟩
                    · rw [lookupA_dsetA, if_pos rfl]
                    · rw [lookupA_dsetA, if_neg (by simp), h13]
                · obtain ⟨u2, h1, h2, h3⟩ := base
                  exact ⟨u2, by rw [lookupA_dsetA, if_neg hc]; exact h1, h2, h3⟩
              | null =>
                have he : try_alternate_env_and_fix_user users c t (some (.num q)) =
                    (users, false) := by
                  simp only [try_alternate_env_and_fix_user, if_pos hq, hv, hw]
                rw [he]
                exact base
              | bool b =>
                have he : try_alternate_env_and_fix_user users c t (some (.num q)) =
                    (users, false) := by
                  simp only [try_alternate_env_and_fix_user, if_pos hq, hv, hw]
                rw [he]
                exact base
              | num q2 =>
                have he : try_alternate_env_and_fix_user users c t (some (.num q)) =
                    (users, false) := by
                  simp only [try_alternate_env_and_fix_user, if_pos hq, hv, hw]
                rw [he]
                exact base
              | str s3 =>
                have he : try_alternate_env_and_fix_user users c t (some (.num q)) =
                    (users, false) := by
                  simp only [try_alternate_env_and_fix_user, if_pos hq, hv, hw]
                rw [he]
                exact base
              | arr l2 =>
                have he : try_alternate_env_and_fix_user users c t (some (.num q)) =
                    (users, false) := by
                  simp only [try_alternate_env_and_fix_user, if_pos hq, hv, hw]
                rw [he]
                exact base
            | none =>
              have he : try_alternate_env_and_fix_user users c t (some (.num q)) =
                  (dsetA users c (.obj (dsetA (dsetA w "settings" (.obj [])) "settings"
                    (.obj (dsetA [] "TESTNET" (.bool !t))))), true) := by
                simp only [try_alternate_env_and_fix_user, if_pos hq, hv, hw]
              simp only [he]
              by_cases hc : uid = c
              · subst hc
                rw [hu] at hv
                injection hv with hv2
                injection hv2 with hv3
                subst hv3
                refine ⟨dsetA (dsetA u1 "settings" (.obj [])) "settings"
                  (.obj (dsetA [] "TESTNET" (.bool !t))), ?_, ?_, ?_⟩
                · rw [lookupA_dsetA, if_pos rfl]
                · intro k hk
                  rw [lookupA_dsetA, if_neg hk, lookupA_dsetA, if_neg hk]
                · intro s1 h1
                  rw [hw] at h1
                  cases h1
              · obtain ⟨u2, h1, h2, h3⟩ := base
                exact ⟨u2, by rw [lookupA_dsetA, if_neg hc]; exact h1, h2, h3⟩
          | null =>
            have he : try_alternate_env_and_fix_user users c t (some (.num q)) =
                (users, false) := by
              simp only [try_alternate_env_and_fix_user, if_pos hq, hv]
            rw [he]
            exact base
          | bool b =>
            have he : try_alternate_env_and_fix_user users c t (some (.num q)) =
                (users, false) := by
              simp only [try_alternate_env_and_fix_user, if_pos hq, hv]
            rw [he]
            exact base
          | num q2 =>
            have he : try_alternate_env_and_fix_user users c t (some (.num q)) =
                (users, false) := by
              simp only [try_alternate_env_and_fix_user, if_pos hq, hv]
            rw [he]
            exact base
          | str s3 =>
            have he : try_alternate_env_and_fix_user users c t (some (.num q)) =
                (users, false) := by
              simp only [try_alternate_env_and_fix_user, if_pos hq, hv]
            rw [he]
            exact base
          | arr l2 =>
            have he : try_alternate_env_and_fix_user users c t (some (.num q)) =
                (users, false) := by
              simp only [try_alternate_env_and_fix_user, if_pos hq, hv]
            rw [he]
            exact base
      · have he : try_alternate_env_and_fix_user users c t (some (.num q)) =
            (users, false) := by
          simp only [try_alternate_env_and_fix_user, if_neg hq]
        rw [he]
        exact base

theorem run_once_user_success (parseIso : String → Option ℚ) (now : ℚ)
    (envf : Bool → BalanceResp) (altf : Bool → Option BalanceResp)
    (users : List (String × JVal)) (uid : String)
    (u s : List (String × JVal))
    (hset : lookupA u "settings" = some (.obj s))
    (hd : truthy ((lookupA s "DISABLED_AUTH").getD (.bool false)) = false)
    (hsub : subSkip parseIso now ((lookupA u "sub_until").getD .null) = false)
    (hk1 : truthy ((lookupA u "api_key").getD (.str "")) = true)
    (hk2 : truthy ((lookupA u "api_secret").getD (.str "")) = true)
    (hcl : classifyAuthFailed (envf (truthy ((lookupA s "TESTNET").getD (.bool true)))) = false) :
    run_once_user parseIso now envf altf users uid u =
      .ok (dsetA users uid (.obj (dsetA u "_auth_failures" (.num 0))), 1, []) := by
  simp only [run_once_user, extract_settings_of_obj u s hset, hd, hsub, hk1, hk2, hcl,
    Bool.not_true, Bool.or_self, Bool.false_eq_true, if_false]

theorem run_once_user_fail1 (parseIso : String → Option ℚ) (now : ℚ)
    (envf : Bool → BalanceResp) (altf : Bool → Option BalanceResp)
    (users : List (String × JVal)) (uid : String)
    (u s : List (String × JVal))
    (hset : lookupA u "settings" = some (.obj s))
    (hd : truthy ((lookupA s "DISABLED_AUTH").getD (.bool false)) = false)
    (hsub : subSkip parseIso now ((lookupA u "sub_until").getD .null) = false)
    (hk1 : truthy ((lookupA u "api_key").getD (.str "")) = true)
    (hk2 : truthy ((lookupA u "api_secret").getD (.str "")) = true)
    (hn : authFailuresVal u = some 0)
    (hcl : classifyAuthFailed (envf (truthy ((lookupA s "TESTNET").getD (.bool true)))) = true) :
    run_once_user parseIso now envf altf users uid u =
      .ok ((try_alternate_env_and_fix_user
          (dsetA users uid (.obj (dsetA u "_auth_failures" (.num 1)))) (canonUid uid)
          (truthy ((lookupA s "TESTNET").getD (.bool true)))
          (altf (!truthy ((lookupA s "TESTNET").getD (.bool true))))).1, 1,
        [!truthy ((lookupA s "TESTNET").getD (.bool true))]) := by
  simp only [run_once_user, extract_settings_of_obj u s hset, hd, hsub, hk1, hk2, hcl, hn,
    Bool.not_true, Bool.or_self, Bool.false_eq_true, if_false, if_true]
  norm_num

theorem run_once_user_fail_mid (parseIso : String → Option ℚ) (now : ℚ)
    (envf : Bool → BalanceResp) (altf : Bool → Option BalanceResp)
    (users : List (String × JVal)) (uid : String)
    (u s : List (String × JVal)) (n : ℚ)
    (hset : lookupA u "settings" = some (.obj s))
    (hd : truthy ((lookupA s "DISABLED_AUTH").getD (.bool false)) = false)
    (hsub : subSkip parseIso now ((lookupA u "sub_until").getD .null) = false)
    (hk1 : truthy ((lookupA u "api_key").getD (.str "")) = true)
    (hk2 : truthy ((lookupA u "api_secret").getD (.str "")) = true)
    (hn : authFailuresVal u = some n)
    (h1 : ¬n + 1 = 1) (h3 : ¬(3 : ℚ) ≤ n + 1)
    (hcl : classifyAuthFailed (envf (truthy ((lookupA s "TESTNET").getD (.bool true)))) = true) :
    run_once_user parseIso now envf altf users uid u =
      .ok (dsetA users uid (.obj (dsetA u "_auth_failures" (.num (n + 1)))), 1, []) := by
  simp only [run_once_user, extract_settings_of_obj u s hset, hd, hsub, hk1, hk2, hcl, hn,
    Bool.not_true, Bool.or_self, Bool.false_eq_true, if_false, if_true, if_neg h1,
    if_neg h3]

theorem run_once_user_fail_disable (parseIso : String → Option ℚ) (now : ℚ)
    (envf : Bool → BalanceResp) (altf : Bool → Option BalanceResp)
    (users : List (String × JVal)) (uid : String)
    (u s : List (String × JVal)) (n : ℚ)
    (hset : lookupA u "settings" = some (.obj s))
    (hd : truthy ((lookupA s "DISABLED_AUTH").getD (.bool false)) = false)
    (hsub : subSkip parseIso now ((lookupA u "sub_until").getD .null) = false)
    (hk1 : truthy ((lookupA u "api_key").getD (.str "")) = true)
    (hk2 : truthy ((lookupA u "api_secret").getD (.str "")) = true)
    (hn : authFailuresVal u = some n)
    (h1 : ¬n + 1 = 1) (h3 : (3 : ℚ) ≤ n + 1)
    (hcl : classifyAuthFailed (envf (truthy ((lookupA s "TESTNET").getD (.bool true)))) = true) :
    run_once_user parseIso now envf altf users uid u =
      .ok (dsetA (dsetA users uid (.obj (dsetA u "_auth_failures" (.num (n + 1))))) uid
        (.obj (dsetA (dsetA u "_auth_failures" (.num (n + 1))) "settings"
          (.obj (dsetA s "DISABLED_AUTH" (.bool true))))), 1, []) := by
  have hset2 : lookupA (dsetA u "_auth_failures" (.num (n + 1))) "settings" =
      some (.obj s) := by
    rw [lookupA_dsetA, if_neg (by simp), hset]
  have hdis : disableAuth (dsetA u "_auth_failures" (.num (n + 1))) =
      .ok (dsetA (dsetA u "_auth_failures" (.num (n + 1))) "settings"
        (.obj (dsetA s "DISABLED_AUTH" (.bool true)))) := by
    unfold disableAuth
    rw [hset2]
  simp only [run_once_user, extract_settings_of_obj u s hset, hd, hsub, hk1, hk2, hcl, hn,
    Bool.not_true, Bool.or_self, Bool.false_eq_true, if_false, if_true, if_neg h1,
    if_pos h3, hdis]

theorem run_once_user_skips (parseIso : String → Option ℚ) (now : ℚ)
    (envf : Bool → BalanceResp) (altf : Bool → Option BalanceResp)
    (users : List (String × JVal)) (uid : String)
    (u s : List (String × JVal))
    (hes : extract_settings u = .ok s)
    (h : truthy ((lookupA s "DISABLED_AUTH").getD (.bool false)) = true ∨
      subSkip parseIso now ((lookupA u "sub_until").getD .null) = true ∨
      truthy ((lookupA u "api_key").getD (.str "")) = false ∨
      truthy ((lookupA u "api_secret").getD (.str "")) = false) :
    run_once_user parseIso now envf altf users uid u = .ok (users, 0, []) := by
  simp only [run_once_user, hes]
  rcases h with h1 | h1 | h1 | h1
  · simp [h1]
  · by_cases hd : truthy ((lookupA s "DISABLED_AUTH").getD (.bool false)) = true
    · simp [hd]
    · simp only [Bool.not_eq_true] at hd
      simp [hd, h1]
  · by_cases hd : truthy ((lookupA s "DISABLED_AUTH").getD (.bool false)) = true
    · simp [hd]
    · simp only [Bool.not_eq_true] at hd
      by_cases hsub : subSkip parseIso now ((lookupA u "sub_until").getD .null) = true
      · simp [hd, hsub]
      · simp only [Bool.not_eq_true] at hsub
        simp [hd, hsub, h1]
  · by_cases hd : truthy ((lookupA s "DISABLED_AUTH").getD (.bool false)) = true
    · simp [hd]
    · simp only [Bool.not_eq_true] at hd
      by_cases hsub : subSkip parseIso now ((lookupA u "sub_until").getD .null) = true
      · simp [hd, hsub]
      · simp only [Bool.not_eq_true] at hsub
        simp [hd, hsub, h1]

theorem run_once_single (parseIso : String → Option ℚ) (now : ℚ)
    (env : String → Bool → BalanceResp)
    (altE : String → Bool → Option BalanceResp) (uid : String)
    (users usersOut u : List (String × JVal)) (c : ℕ) (p : List Bool)
    (hid : isIntStr uid = true)
    (hkeys : users.map Prod.fst = [uid])
    (hu : lookupA users uid = some (.obj u))
    (h : run_once_user parseIso now (env uid) (altE uid) users uid u =
      .ok (usersOut, c, p)) :
    run_once parseIso now env altE users = .ok usersOut := by
  unfold run_once
  rw [hkeys]
  simp only [run_once_loop, hid, if_true, hu, h]

/-- C1: starting from an active profile with `_auth_failures = 0` and
`DISABLED_AUTH` false, three consecutive run_once cycles whose get_balance
response is classified as an auth failure (in whichever environment each
cycle queries) leave the persisted profile with `settings.DISABLED_AUTH =
True`; and (second conjunct) any cycle whose response is classified as a
success resets `_auth_failures` to 0 in the persisted profile. -/
theorem auth_three_failures_disable (parseIso : String → Option ℚ) (now : ℚ)
    (uid : String) (env1 env2 env3 : Bool → BalanceResp)
    (alt1 alt2 alt3 : Bool → Option BalanceResp)
    (u s : List (String × JVal))
    (hid : isIntStr uid = true)
    (hset : lookupA u "settings" = some (.obj s))
    (hd : truthy ((lookupA s "DISABLED_AUTH").getD (.bool false)) = false)
    (hsub : subSkip parseIso now ((lookupA u "sub_until").getD .null) = false)
    (hk1 : truthy ((lookupA u "api_key").getD (.str "")) = true)
    (hk2 : truthy ((lookupA u "api_secret").getD (.str "")) = true)
    (hn : lookupA u "_auth_failures" = some (.num 0))
    (hc1 : ∀ b, classifyAuthFailed (env1 b) = true)
    (hc2 : ∀ b, classifyAuthFailed (env2 b) = true)
    (hc3 : ∀ b, classifyAuthFailed (env3 b) = true) :
    (∃ users1 users2 users3 u3 s3,
      run_once parseIso now (fun _ => env1) (fun _ => alt1) [(uid, .obj u)] = .ok users1 ∧
      run_once parseIso now (fun _ => env2) (fun _ => alt2) users1 = .ok users2 ∧
      run_once parseIso now (fun _ => env3) (fun _ => alt3) users2 = .ok users3 ∧
      lookupA users3 uid = some (.obj u3) ∧
      lookupA u3 "settings" = some (.obj s3) ∧
      lookupA s3 "DISABLED_AUTH" = some (.bool true) ∧
      lookupA u3 "_auth_failures" = some (.num 3)) ∧
    (∀ (envS : Bool → BalanceResp) (altS : Bool → Option BalanceResp)
      (ua sa : List (String × JVal)),
      lookupA ua "settings" = some (.obj sa) →
      truthy ((lookupA sa "DISABLED_AUTH").getD (.bool false)) = false →
      subSkip parseIso now ((lookupA ua "sub_until").getD .null) = false →
      truthy ((lookupA ua "api_key").getD (.str "")) = true →
      truthy ((lookupA ua "api_secret").getD (.str "")) = true →
      classifyAuthFailed (envS (truthy ((lookupA sa "TESTNET").getD (.bool true)))) = false →
      run_once parseIso now (fun _ => envS) (fun _ => altS) [(uid, .obj ua)] =
        .ok [(uid, .obj (dsetA ua "_auth_failures" (.num 0)))]) := by
  constructor
  · -- cycle 1
    have hn0 : authFailuresVal u = some 0 := authFailuresVal_num u 0 hn
    have hstep1 := run_once_user_fail1 parseIso now env1 alt1 [(uid, .obj u)] uid u s
      hset hd hsub hk1 hk2 hn0 (hc1 _)
    set t1 := truthy ((lookupA s "TESTNET").getD (.bool true)) with ht1
    set users1 := dsetA [(uid, JVal.obj u)] uid (.obj (dsetA u "_auth_failures" (.num 1)))
      with h1d
    set usersA := (try_alternate_env_and_fix_user users1 (canonUid uid) t1
      (alt1 (!t1))).1 with hAd
    have hkeys0 : ([(uid, JVal.obj u)] : List (String × JVal)).map Prod.fst = [uid] := by
      simp
    have hlk0 : lookupA [(uid, JVal.obj u)] uid = some (.obj u) := by simp [lookupA]
    have hrun1 : run_once parseIso now (fun _ => env1) (fun _ => alt1)
        [(uid, .obj u)] = .ok usersA :=
      run_once_single parseIso now (fun _ => env1) (fun _ => alt1) uid
        [(uid, .obj u)] usersA u 1 [!t1] hid hkeys0 hlk0 hstep1
    have hu1d : lookupA users1 uid = some (.obj (dsetA u "_auth_failures" (.num 1))) := by
      rw [h1d, lookupA_dsetA, if_pos rfl]
    have hkeys1 : users1.map Prod.fst = [uid] := by
      rw [h1d, dsetA_map_fst_of_isSome _ _ _ (by rw [hlk0]; rfl), hkeys0]
    obtain ⟨u1, hAu, hpres1, hsp1⟩ :=
      tryAlt_entry_obj users1 (canonUid uid) t1 (alt1 (!t1)) uid _ hu1d
    have hsetd : lookupA (dsetA u "_auth_failures" (.num 1)) "settings" =
        some (.obj s) := by
      rw [lookupA_dsetA, if_neg (by simp), hset]
    obtain ⟨s1, hset1, hdis1⟩ := hsp1 s hsetd
    have hd1 : truthy ((lookupA s1 "DISABLED_AUTH").getD (.bool false)) = false := by
      rw [hdis1]; exact hd
    have hsubv1 : lookupA u1 "sub_until" = lookupA u "sub_until" := by
      rw [hpres1 "sub_until" (by simp), lookupA_dsetA, if_neg (by simp)]
    have hsub1 : subSkip parseIso now ((lookupA u1 "sub_until").getD .null) = false := by
      rw [hsubv1]; exact hsub
    have hka1 : lookupA u1 "api_key" = lookupA u "api_key" := by
      rw [hpres1 "api_key" (by simp), lookupA_dsetA, if_neg (by simp)]
    have hk11 : truthy ((lookupA u1 "api_key").getD (.str "")) = true := by
      rw [hka1]; exact hk1
    have hka2 : lookupA u1 "api_secret" = lookupA u "api_secret" := by
      rw [hpres1 "api_secret" (by simp), lookupA_dsetA, if_neg (by simp)]
    have hk21 : truthy ((lookupA u1 "api_secret").getD (.str "")) = true := by
      rw [hka2]; exact hk2
    have hn1 : lookupA u1 "_auth_failures" = some (.num 1) := by
      rw [hpres1 "_auth_failures" (by simp), lookupA_dsetA, if_pos rfl]
    have hkeysA : usersA.map Prod.fst = [uid] := by
      rw [hAd, tryAlt_map_fst, hkeys1]
    -- cycle 2
    have hstep2 := run_once_user_fail_mid parseIso now env2 alt2 usersA uid u1 s1 1
      hset1 hd1 hsub1 hk11 hk21 (authFailuresVal_num u1 1 hn1) (by norm_num)
      (by norm_num) (hc2 _)
    set u2 := dsetA u1 "_auth_failures" (.num (1 + 1)) with hu2d
    set usersB := dsetA usersA uid (.obj u2) with hBd
    have hrun2 : run_once parseIso now (fun _ => env2) (fun _ => alt2) usersA =
        .ok usersB :=
      run_once_single parseIso now (fun _ => env2) (fun _ => alt2) uid usersA usersB
        u1 1 [] hid hkeysA hAu hstep2
    have hBu : lookupA usersB uid = some (.obj u2) := by
      rw [hBd, lookupA_dsetA, if_pos rfl]
    have hset2 : lookupA u2 "settings" = some (.obj s1) := by
      rw [hu2d, lookupA_dsetA, if_neg (by simp), hset1]
    have hsub2 : subSkip parseIso now ((lookupA u2 "sub_until").getD .null) = false := by
      rw [hu2d, lookupA_dsetA, if_neg (by simp), hsubv1]; exact hsub
    have hk12 : truthy ((lookupA u2 "api_key").getD (.str "")) = true := by
      rw [hu2d, lookupA_dsetA, if_neg (by simp), hka1]; exact hk1
    have hk22 : truthy ((lookupA u2 "api_secret").getD (.str "")) = true := by
      rw [hu2d, lookupA_dsetA, if_neg (by simp), hka2]; exact hk2
    have hn2 : lookupA u2 "_auth_failures" = some (.num (1 + 1)) := by
      rw [hu2d, lookupA_dsetA, if_pos rfl]
    have hkeysB : usersB.map Prod.fst = [uid] := by
      rw [hBd, dsetA_map_fst_of_isSome _ _ _ (by rw [hAu]; rfl), hkeysA]
    -- cycle 3
    have hstep3 := run_once_user_fail_disable parseIso now env3 alt3 usersB uid u2 s1
      (1 + 1) hset2 hd1 hsub2 hk12 hk22 (authFailuresVal_num u2 (1 + 1) hn2)
      (by norm_num) (by norm_num) (hc3 _)
    set u3d := dsetA u2 "_auth_failures" (.num (1 + 1 + 1)) with hu3d
    set uFin := dsetA u3d "settings" (.obj (dsetA s1 "DISABLED_AUTH" (.bool true)))
      with hFd
    set usersD := dsetA (dsetA usersB uid (.obj u3d)) uid (.obj uFin) with hDd
    have hrun3 : run_once parseIso now (fun _ => env3) (fun _ => alt3) usersB =
        .ok usersD :=
      run_once_single parseIso now (fun _ => env3) (fun _ => alt3) uid usersB usersD
        u2 1 [] hid hkeysB hBu hstep3
    refine ⟨usersA, usersB, usersD, uFin, dsetA s1 "DISABLED_AUTH" (.bool true),
      hrun1, hrun2, hrun3, ?_, ?_, ?_, ?_⟩
    · rw [hDd, lookupA_dsetA, if_pos rfl]
    · rw [hFd, lookupA_dsetA, if_pos rfl]
    · rw [lookupA_dsetA, if_pos rfl]
    · rw [hFd, lookupA_dsetA, if_neg (by simp), hu3d, lookupA_dsetA, if_pos rfl]
      norm_num
  · intro envS altS ua sa hset' hd' hsub' hk1' hk2' hcl'
    have hstep := run_once_user_success parseIso now envS altS [(uid, .obj ua)] uid
      ua sa hset' hd' hsub' hk1' hk2' hcl'
    have hds : dsetA [(uid, JVal.obj ua)] uid (.obj (dsetA ua "_auth_failures" (.num 0))) =
        [(uid, .obj (dsetA ua "_auth_failures" (.num 0)))] := by
      simp [dsetA]
    exact run_once_single parseIso now (fun _ => envS) (fun _ => altS) uid
      [(uid, .obj ua)] [(uid, .obj (dsetA ua "_auth_failures" (.num 0)))] ua 1 []
      hid (by simp) (by simp [lookupA]) (by rw [hstep, hds])

/-- An active single-user profile: credentials set, counter 0, testnet, not
disabled, no subscription bound. -/
def uActive : List (String × JVal) :=
  [("api_key", .str "k"), ("api_secret", .str "s"), ("_auth_failures", .num 0),
   ("settings", .obj [("TESTNET", .bool true), ("DISABLED_AUTH", .bool false)])]

/-- The settings dict of uActive. -/
def sActive : List (String × JVal) :=
  [("TESTNET", .bool true), ("DISABLED_AUTH", .bool false)]

/-- An explicit 401 error envelope. -/
def respAuthFail : BalanceResp := .dict [("retCode", .num 401)]

/-- Witness for C1: a concrete user whose balance responses carry retCode 401
in all three cycles ends disabled; a classified success resets the counter. -/
theorem auth_three_failures_disable_witness :
    (∃ users1 users2 users3 u3 s3,
      run_once (fun _ => none) 0 (fun _ => fun _ => respAuthFail)
        (fun _ => fun _ => none) [("1", .obj uActive)] = .ok users1 ∧
      run_once (fun _ => none) 0 (fun _ => fun _ => respAuthFail)
        (fun _ => fun _ => none) users1 = .ok users2 ∧
      run_once (fun _ => none) 0 (fun _ => fun _ => respAuthFail)
        (fun _ => fun _ => none) users2 = .ok users3 ∧
      lookupA users3 "1" = some (.obj u3) ∧
      lookupA u3 "settings" = some (.obj s3) ∧
      lookupA s3 "DISABLED_AUTH" = some (.bool true) ∧
      lookupA u3 "_auth_failures" = some (.num 3)) ∧
    (∀ (envS : Bool → BalanceResp) (altS : Bool → Option BalanceResp)
      (ua sa : List (String × JVal)),
      lookupA ua "settings" = some (.obj sa) →
      truthy ((lookupA sa "DISABLED_AUTH").getD (.bool false)) = false →
      subSkip (fun _ => none) 0 ((lookupA ua "sub_until").getD .null) = false →
      truthy ((lookupA ua "api_key").getD (.str "")) = true →
      truthy ((lookupA ua "api_secret").getD (.str "")) = true →
      classifyAuthFailed (envS (truthy ((lookupA sa "TESTNET").getD (.bool true)))) = false →
      run_once (fun _ => none) 0 (fun _ => envS) (fun _ => altS) [("1", .obj ua)] =
        .ok [("1", .obj (dsetA ua "_auth_failures" (.num 0)))]) :=
  auth_three_failures_disable (fun _ => none) 0 "1"
    (fun _ => respAuthFail) (fun _ => respAuthFail) (fun _ => respAuthFail)
    (fun _ => none) (fun _ => none) (fun _ => none) uActive sActive
    (by decide) rfl rfl rfl (by decide) (by decide) rfl
    (fun _ => (by decide : classifyAuthFailed respAuthFail = true))
    (fun _ => (by decide : classifyAuthFailed respAuthFail = true))
    (fun _ => (by decide : classifyAuthFailed respAuthFail = true))

/-- C2 counterexample: the users.json key "01" is accepted by `int()` but is
not canonical (`str(int("01")) = "1"`).  On failure #1 the probe of the
alternate environment returns the non-negative balance 5, yet the processed
user's persisted TESTNET is NOT flipped: try_alternate_env_and_fix_user
indexes `users[str(uid)]` = users["1"], which is absent, so the swallowed
KeyError leaves the mapping exactly as after the counter increment and the
settings still carry TESTNET = true. -/
theorem alternate_env_probe_counterexample :
    isIntStr "01" = true ∧ canonUid "01" = "1" ∧
    run_once_user (fun _ => none) 0 (fun _ => respAuthFail) (fun _ => some (.num 5))
      [("01", .obj uActive)] "01" uActive =
      .ok ([("01", .obj (dsetA uActive "_auth_failures" (.num 1)))], 1, [!true]) ∧
    lookupA (dsetA uActive "_auth_failures" (.num 1)) "settings" =
      some (.obj sActive) ∧
    lookupA sActive "TESTNET" = some (.bool true) := by
  refine ⟨by decide, by decide, ?_, rfl, rfl⟩
  have hstep := run_once_user_fail1 (fun _ => none) 0 (fun _ => respAuthFail)
    (fun _ => some (.num 5)) [("01", .obj uActive)] "01" uActive sActive
    rfl rfl rfl (by decide) (by decide) rfl (by decide)
  rw [hstep]
  rfl

/-- C2 (amended): on the cycle where the incremented `_auth_failures` equals
exactly 1, exactly one probe is made, against the flipped TESTNET flag (the
`[!t]` probe list); the processed user's persisted counter is 1 no matter
how the probe turns out; an exception inside the probe (`altf (!t) = none`)
is swallowed and leaves the mapping exactly as after the increment.  When
the probe returns a non-negative numeric balance, the write targets the
entry under the CANONICAL key `str(int(uid))`: if the iterated key is
canonical the processed user's persisted `settings.TESTNET` is flipped to
the probed environment; if it is not canonical the flip is lost to a
swallowed KeyError when the canonical key is absent, or lands on the
profile stored under the canonical key — a different user. -/
theorem alternate_env_probe (parseIso : String → Option ℚ) (now : ℚ)
    (envf : Bool → BalanceResp) (altf : Bool → Option BalanceResp)
    (users : List (String × JVal)) (uid : String)
    (u s : List (String × JVal)) (t : Bool)
    (hset : lookupA u "settings" = some (.obj s))
    (hd : truthy ((lookupA s "DISABLED_AUTH").getD (.bool false)) = false)
    (hsub : subSkip parseIso now ((lookupA u "sub_until").getD .null) = false)
    (hk1 : truthy ((lookupA u "api_key").getD (.str "")) = true)
    (hk2 : truthy ((lookupA u "api_secret").getD (.str "")) = true)
    (hn : authFailuresVal u = some 0)
    (ht : t = truthy ((lookupA s "TESTNET").getD (.bool true)))
    (hcl : classifyAuthFailed (envf t) = true) :
    ∃ usersOut u2,
      run_once_user parseIso now envf altf users uid u = .ok (usersOut, 1, [!t]) ∧
      lookupA usersOut uid = some (.obj u2) ∧
      lookupA u2 "_auth_failures" = some (.num 1) ∧
      (altf (!t) = none →
        usersOut = dsetA users uid (.obj (dsetA u "_auth_failures" (.num 1)))) ∧
      (∀ q, altf (!t) = some (.num q) → 0 ≤ q → canonUid uid = uid →
        ∃ s2, lookupA u2 "settings" = some (.obj s2) ∧
          lookupA s2 "TESTNET" = some (.bool !t)) ∧
      (∀ q, altf (!t) = some (.num q) → 0 ≤ q → ¬canonUid uid = uid →
        lookupA users (canonUid uid) = none →
        usersOut = dsetA users uid (.obj (dsetA u "_auth_failures" (.num 1)))) ∧
      (∀ q v sv, altf (!t) = some (.num q) → 0 ≤ q → ¬canonUid uid = uid →
        lookupA users (canonUid uid) = some (.obj v) →
        lookupA v "settings" = some (.obj sv) →
        ∃ v2 s2, lookupA usersOut (canonUid uid) = some (.obj v2) ∧
          lookupA v2 "settings" = some (.obj s2) ∧
          lookupA s2 "TESTNET" = some (.bool !t)) := by
  subst ht
  have hstep := run_once_user_fail1 parseIso now envf altf users uid u s hset hd hsub
    hk1 hk2 hn hcl
  set t := truthy ((lookupA s "TESTNET").getD (.bool true)) with htd
  set users1 := dsetA users uid (.obj (dsetA u "_auth_failures" (.num 1))) with h1d
  have hu1 : lookupA users1 uid = some (.obj (dsetA u "_auth_failures" (.num 1))) := by
    rw [h1d, lookupA_dsetA, if_pos rfl]
  obtain ⟨u2, hu2, hpres, hsp⟩ :=
    tryAlt_entry_obj users1 (canonUid uid) t (altf (!t)) uid _ hu1
  refine ⟨(try_alternate_env_and_fix_user users1 (canonUid uid) t (altf (!t))).1, u2,
    hstep, hu2, ?_, ?_, ?_, ?_, ?_⟩
  · rw [hpres "_auth_failures" (by simp), lookupA_dsetA, if_pos rfl]
  · intro ha
    rw [ha]
    rfl
  · intro q ha hq hcanon
    rw [ha] at hu2
    have hsetd : lookupA (dsetA u "_auth_failures" (.num 1)) "settings" =
        some (.obj s) := by
      rw [lookupA_dsetA, if_neg (by simp), hset]
    have hflip := tryAlt_flip_eq users1 (canonUid uid) t q
      (dsetA u "_auth_failures" (.num 1)) s hq (by rw [hcanon]; exact hu1) hsetd
    simp only [hflip] at hu2
    rw [hcanon, lookupA_dsetA, if_pos rfl] at hu2
    injection hu2 with ha2
    injection ha2 with ha3
    subst ha3
    refine ⟨dsetA s "TESTNET" (.bool !t), ?_, ?_⟩
    · rw [lookupA_dsetA, if_pos rfl]
    · rw [lookupA_dsetA, if_pos rfl]
  · intro q ha hcanonq habs hnone
    rw [ha]
    have h1 : lookupA users1 (canonUid uid) = none := by
      rw [h1d, lookupA_dsetA, if_neg habs, hnone]
    rw [tryAlt_keyabsent users1 (canonUid uid) t q hcanonq h1]
  · intro q v sv ha hq hcanon hv hsv
    rw [ha]
    have hv1 : lookupA users1 (canonUid uid) = some (.obj v) := by
      rw [h1d, lookupA_dsetA, if_neg hcanon, hv]
    have hflip := tryAlt_flip_eq users1 (canonUid uid) t q v sv hq hv1 hsv
    refine ⟨dsetA v "settings" (.obj (dsetA sv "TESTNET" (.bool !t))),
      dsetA sv "TESTNET" (.bool !t), ?_, ?_, ?_⟩
    · simp only [hflip]
      rw [lookupA_dsetA, if_pos rfl]
    · rw [lookupA_dsetA, if_pos rfl]
    · rw [lookupA_dsetA, if_pos rfl]

/-- Witness for the amended C2: a canonical uid "1" with a probe returning
balance 5; the persisted TESTNET is flipped to false (the probed mainnet). -/
theorem alternate_env_probe_witness :
    ∃ usersOut u2,
      run_once_user (fun _ => none) 0 (fun _ => respAuthFail)
        (fun _ => some (.num 5)) [("1", .obj uActive)] "1" uActive =
        .ok (usersOut, 1, [!true]) ∧
      lookupA usersOut "1" = some (.obj u2) ∧
      lookupA u2 "_auth_failures" = some (.num 1) ∧
      ((fun (_ : Bool) => some (BalanceResp.num 5)) (!true) = none →
        usersOut = dsetA [("1", .obj uActive)] "1"
          (.obj (dsetA uActive "_auth_failures" (.num 1)))) ∧
      (∀ q, (fun (_ : Bool) => some (BalanceResp.num 5)) (!true) = some (.num q) →
        0 ≤ q → canonUid "1" = "1" →
        ∃ s2, lookupA u2 "settings" = some (.obj s2) ∧
          lookupA s2 "TESTNET" = some (.bool !true)) ∧
      (∀ q, (fun (_ : Bool) => some (BalanceResp.num 5)) (!true) = some (.num q) →
        0 ≤ q → ¬canonUid "1" = "1" →
        lookupA [("1", .obj uActive)] (canonUid "1") = none →
        usersOut = dsetA [("1", .obj uActive)] "1"
          (.obj (dsetA uActive "_auth_failures" (.num 1)))) ∧
      (∀ q v sv, (fun (_ : Bool) => some (BalanceResp.num 5)) (!true) = some (.num q) →
        0 ≤ q → ¬canonUid "1" = "1" →
        lookupA [("1", .obj uActive)] (canonUid "1") = some (.obj v) →
        lookupA v "settings" = some (.obj sv) →
        ∃ v2 s2, lookupA usersOut (canonUid "1") = some (.obj v2) ∧
          lookupA v2 "settings" = some (.obj s2) ∧
          lookupA s2 "TESTNET" = some (.bool !true)) :=
  alternate_env_probe (fun _ => none) 0 (fun _ => respAuthFail)
    (fun _ => some (.num 5)) [("1", .obj uActive)] "1" uActive sActive true
    rfl rfl rfl (by decide) (by decide) rfl rfl
    (by decide : classifyAuthFailed respAuthFail = true)

/-- An otherwise-active profile with no sub_until key and no counter. -/
def uNoSub : List (String × JVal) :=
  [("api_key", .str "k"), ("api_secret", .str "s"),
   ("settings", .obj [("TESTNET", .bool true), ("DISABLED_AUTH", .bool false)])]

/-- C3 counterexample: `uNoSub` has no `sub_until` key, so per the claim the
subscription is inactive and the user must be skipped with no exchange call
and no state change; but the per-user body makes one get_balance call (the
middle component 1) and persists a changed profile (the appended counter). -/
theorem skip_claim_counterexample :
    run_once_user (fun _ => none) 0 (fun _ => BalanceResp.num 7) (fun _ => none)
      [("1", .obj uNoSub)] "1" uNoSub =
      .ok ([("1", .obj (uNoSub ++ [("_auth_failures", JVal.num 0)]))], 1, []) ∧
    uNoSub ++ [("_auth_failures", JVal.num 0)] ≠ uNoSub := by
  constructor
  · rfl
  · intro h
    have h2 := congrArg List.length h
    simp [uNoSub] at h2

/-- C3 (amended): a user is skipped entirely (mapping returned unchanged, no
get_balance call, no probe) when `settings.DISABLED_AUTH` is truthy, or
`sub_until` is present and truthy and parses to a time before now, or either
credential is empty/falsy.  An absent (or falsy, or unparseable) `sub_until`
does NOT skip the user. -/
theorem skip_conditions_amended (parseIso : String → Option ℚ) (now : ℚ)
    (envf : Bool → BalanceResp) (altf : Bool → Option BalanceResp)
    (users : List (String × JVal)) (uid : String)
    (u s : List (String × JVal))
    (hes : extract_settings u = .ok s)
    (h : truthy ((lookupA s "DISABLED_AUTH").getD (.bool false)) = true ∨
      subSkip parseIso now ((lookupA u "sub_until").getD .null) = true ∨
      truthy ((lookupA u "api_key").getD (.str "")) = false ∨
      truthy ((lookupA u "api_secret").getD (.str "")) = false) :
    run_once_user parseIso now envf altf users uid u = .ok (users, 0, []) :=
  run_once_user_skips parseIso now envf altf users uid u s hes h

/-- A profile disabled by the auth monitor. -/
def uDisabled : List (String × JVal) :=
  [("api_key", .str "k"), ("api_secret", .str "s"),
   ("settings", .obj [("DISABLED_AUTH", .bool true)])]

/-- Witness for the amended C3: a user with DISABLED_AUTH true is returned
unchanged with zero exchange calls. -/
theorem skip_conditions_amended_witness :
    run_once_user (fun _ => none) 0 (fun _ => BalanceResp.num 7) (fun _ => none)
      [("1", .obj uDisabled)] "1" uDisabled =
      .ok ([("1", .obj uDisabled)], 0, []) :=
  skip_conditions_amended (fun _ => none) 0 (fun _ => BalanceResp.num 7)
    (fun _ => none) [("1", .obj uDisabled)] "1" uDisabled
    [("DISABLED_AUTH", JVal.bool true)] rfl (Or.inl rfl)

/-- A profile whose settings value is a truthy non-dict: `settings.get`
raises inside the per-user body. -/
def uBadSettings : List (String × JVal) :=
  [("api_key", .str "k"), ("api_secret", .str "s"), ("settings", .str "oops")]

/-- C4 counterexample: user "1" raises inside the per-user body (truthy
non-dict settings value, AttributeError at `settings.get`); the whole
run_once cycle aborts with the fault and user "2" is not processed, even
though user "2" on its own processes fine.  The claim that a per-user fault
is caught at the loop boundary so later users still run is therefore false. -/
theorem loop_fault_counterexample :
    run_once (fun _ => none) 0 (fun _ => fun _ => BalanceResp.num 7)
      (fun _ => fun _ => none)
      [("1", .obj uBadSettings), ("2", .obj uNoSub)] = .error () ∧
    run_once (fun _ => none) 0 (fun _ => fun _ => BalanceResp.num 7)
      (fun _ => fun _ => none) [("2", .obj uNoSub)] =
      .ok [("2", .obj (uNoSub ++ [("_auth_failures", JVal.num 0)]))] :=
  ⟨rfl, rfl⟩

/-- C4 (amended): run_once has no per-user exception handler (only the
`int(uid_str)` and `sub_until` parses are guarded); an unexpected fault in
one user's iteration propagates out of the loop immediately, so none of the
remaining users are processed in that cycle.  Only the external `loop`
entry point catches it, around the whole cycle. -/
theorem loop_fault_propagation (parseIso : String → Option ℚ) (now : ℚ)
    (env : String → Bool → BalanceResp)
    (altE : String → Bool → Option BalanceResp)
    (users : List (String × JVal)) (uid : String) (rest : List String)
    (u : List (String × JVal))
    (hid : isIntStr uid = true)
    (hu : lookupA users uid = some (.obj u))
    (herr : run_once_user parseIso now (env uid) (altE uid) users uid u = .error ()) :
    run_once_loop parseIso now env altE (uid :: rest) users = .error () := by
  simp only [run_once_loop, hid, if_true, hu, herr]

/-- Witness for the amended C4: the fault of user "1" aborts the loop even
though user "2" is still pending. -/
theorem loop_fault_propagation_witness :
    run_once_loop (fun _ => none) 0 (fun _ => fun _ => BalanceResp.num 7)
      (fun _ => fun _ => none) ("1" :: ["2"])
      [("1", .obj uBadSettings), ("2", .obj uNoSub)] = .error () :=
  loop_fault_propagation (fun _ => none) 0 (fun _ => fun _ => BalanceResp.num 7)
    (fun _ => fun _ => none) [("1", .obj uBadSettings), ("2", .obj uNoSub)]
    "1" ["2"] uBadSettings (by decide) rfl rfl

/-- C10: any get_balance response not classified as an auth failure resets
the persisted `_auth_failures` to 0 even if failures had accumulated (the
prior value k is overwritten); and every error envelope with retCode -1
(timeouts/connection failures) whose message carries none of the
unauthorized/invalid-key markers is not classified as an auth failure, so a
transient error clears previously accumulated auth-failure progress. -/
theorem non_auth_failure_resets (parseIso : String → Option ℚ) (now : ℚ)
    (envf : Bool → BalanceResp) (altf : Bool → Option BalanceResp)
    (users : List (String × JVal)) (uid : String)
    (u s : List (String × JVal)) (k : ℚ)
    (hset : lookupA u "settings" = some (.obj s))
    (hd : truthy ((lookupA s "DISABLED_AUTH").getD (.bool false)) = false)
    (hsub : subSkip parseIso now ((lookupA u "sub_until").getD .null) = false)
    (hk1 : truthy ((lookupA u "api_key").getD (.str "")) = true)
    (hk2 : truthy ((lookupA u "api_secret").getD (.str "")) = true)
    (hn : lookupA u "_auth_failures" = some (.num k))
    (hcl : classifyAuthFailed (envf (truthy ((lookupA s "TESTNET").getD (.bool true)))) = false) :
    (run_once_user parseIso now envf altf users uid u =
        .ok (dsetA users uid (.obj (dsetA u "_auth_failures" (.num 0))), 1, []) ∧
      lookupA (dsetA u "_auth_failures" (.num 0)) "_auth_failures" = some (.num 0)) ∧
    (∀ m : String, strHasSub (strLower m) "unauthor" = false →
      strHasSub (strLower m) "invalid api" = false →
      strHasSub (strLower m) "invalid apikey" = false →
      classifyAuthFailed (.dict [("retCode", .num (-1)), ("retMsg", .str m)]) = false) := by
  refine ⟨⟨?_, ?_⟩, ?_⟩
  · exact run_once_user_success parseIso now envf altf users uid u s hset hd hsub hk1 hk2 hcl
  · rw [lookupA_dsetA, if_pos rfl]
  · intro m h1 h2 h3
    by_cases hm : m = ""
    · subst hm; decide
    · simp only [classifyAuthFailed, lookupA]
      simp only [show (("retCode" : String) = "retCode") = True from by simp,
        show (("retCode" : String) = "retMsg") = False from by simp,
        show (("retMsg" : String) = "retMsg") = True from by simp, if_true, if_false]
      have ht : truthy (JVal.num (-1)) = true := by decide
      have htm : truthy (JVal.str m) = true := by simp [truthy, hm]
      simp only [Option.getD, ht, htm, if_true]
      have hrc : pyStr (JVal.num (-1)) = "-1" := by decide
      have hpm : pyStr (JVal.str m) = m := rfl
      rw [hrc, hpm, h1, h2, h3]
      decide

/-- Witness for C10: a user with two accumulated failures receives a
retCode -1 timeout envelope; the cycle resets the counter to 0. -/
theorem non_auth_failure_resets_witness :
    (run_once_user (fun _ => none) 0
        (fun _ => BalanceResp.dict [("retCode", .num (-1)), ("retMsg", .str "Read timed out")])
        (fun _ => none) [("1", .obj (dsetA uActive "_auth_failures" (.num 2)))] "1"
        (dsetA uActive "_auth_failures" (.num 2)) =
        .ok (dsetA [("1", .obj (dsetA uActive "_auth_failures" (.num 2)))] "1"
          (.obj (dsetA (dsetA uActive "_auth_failures" (.num 2)) "_auth_failures" (.num 0))),
          1, []) ∧
      lookupA (dsetA (dsetA uActive "_auth_failures" (.num 2)) "_auth_failures" (.num 0))
        "_auth_failures" = some (.num 0)) ∧
    (∀ m : String, strHasSub (strLower m) "unauthor" = false →
      strHasSub (strLower m) "invalid api" = false →
      strHasSub (strLower m) "invalid apikey" = false →
      classifyAuthFailed (.dict [("retCode", .num (-1)), ("retMsg", .str m)]) = false) :=
  non_auth_failure_resets (fun _ => none) 0
    (fun _ => BalanceResp.dict [("retCode", .num (-1)), ("retMsg", .str "Read timed out")])
    (fun _ => none) [("1", .obj (dsetA uActive "_auth_failures" (.num 2)))] "1"
    (dsetA uActive "_auth_failures" (.num 2)) sActive 2
    rfl rfl rfl (by decide) (by decide) rfl
    (by decide : classifyAuthFailed
      (BalanceResp.dict [("retCode", .num (-1)), ("retMsg", .str "Read timed out")]) = false)

/-!
MarketDataNormalizer model (trading_core.py normalize_ohlcv_to_df,
lines 113-177).

The pandas pipeline is: extract an item container from the nested response,
turn each item into a (ts, open, high, low, close, volume) tuple, convert the
timestamp (digit strings / non-negative integers are epoch milliseconds,
everything else goes to `pd.to_datetime`, whose calendar parsing is the
`calParse` parameter with `none` for NaT), coerce the numeric columns with
errors="coerce" (`none` for NaN), drop rows with NaT timestamps, and sort by
timestamp.  The DataFrame passthrough branch (line 117) is outside the
JSON-decoded input space and not modelled. -/

/-- A raw extracted row before any conversion. -/
structure RawRow where
  ts : JVal
  o : JVal
  h : JVal
  l : JVal
  c : JVal
  vol : JVal

/-- A normalized output row: timestamp (epoch ms) plus coerced numeric
fields, `none` = NaN. -/
structure OhlcvRow where
  t : ℚ
  op : Option ℚ
  hi : Option ℚ
  lo : Option ℚ
  cl : Option ℚ
  vol : Option ℚ
deriving DecidableEq

/-- Split a character list at its single dot; `none` when it has two or
more dots. -/
def dotSplit : List Char → Option (List Char × List Char)
  | [] => some ([], [])
  | c :: rest =>
    if c = '.' then
      if rest.contains '.' then none else some ([], rest)
    else
      match dotSplit rest with
      | some (a, b) => some (c :: a, b)
      | none => none

/-- Numeric-string parsing as `pd.to_numeric` accepts it on the decimal
fragment (optional sign, digits, at most one dot; scientific notation is
outside the modelled fragment, no claim exercises it). -/
def strToRat (s : String) : Option ℚ :=
  match s.data with
  | [] => none
  | c :: rest =>
    let sgn : ℚ := if c = '-' then -1 else 1
    let ds := if c = '-' || c = '+' then rest else c :: rest
    match dotSplit ds with
    | none => none
    | some (ip, fp) =>
      if (ip ++ fp).isEmpty || !(ip ++ fp).all Char.isDigit then none
      else some (sgn * ((digitsToNat ip : ℚ) + (digitsToNat fp : ℚ) / 10 ^ fp.length))

/-- `pd.to_numeric(x, errors="coerce")` on one cell: numbers pass through,
bools coerce to 0/1, decimal strings parse, everything else becomes NaN. -/
def numParse : JVal → Option ℚ
  | .num q => some q
  | .bool b => some (if b then 1 else 0)
  | .str s => strToRat s
  | _ => none

/-- The `_to_dt` helper (lines 162-170): None gives NaT; an int/float/str
whose `str()` is all digits is epoch milliseconds; everything else goes to
`pd.to_datetime(x, utc=True)`, abstracted by `calParse` (`none` = exception,
hence NaT). -/
def toDt (calParse : JVal → Option ℚ) : JVal → Option ℚ
  | .null => none
  | .num q => if isDigitStr (pyStr (.num q)) then some q else calParse (.num q)
  | .str s => if isDigitStr s then some ((digitsToNat s.data : ℚ)) else calParse (.str s)
  | v => calParse v

/-- Python left-to-right `a or b or ...` over get results: the first truthy
value, or the last value when none is truthy. -/
def orChain : List JVal → JVal
  | [] => .null
  | [v] => v
  | v :: rest => if truthy v then v else orChain rest

/-- Lines 141-158: turn one item into a raw tuple; sequences need at least
5 entries (volume None at exactly 5), dicts use the named-field fallbacks,
anything else is skipped. -/
def rowOfItem : JVal → Option RawRow
  | .arr it =>
    if 6 ≤ it.length then
      some ⟨it.getD 0 .null, it.getD 1 .null, it.getD 2 .null, it.getD 3 .null,
        it.getD 4 .null, it.getD 5 .null⟩
    else if 5 ≤ it.length then
      some ⟨it.getD 0 .null, it.getD 1 .null, it.getD 2 .null, it.getD 3 .null,
        it.getD 4 .null, .null⟩
    else none
  | .obj m =>
    some ⟨orChain [(lookupA m "t").getD .null, (lookupA m "start").getD .null,
        (lookupA m "timestamp").getD .null, (lookupA m "time").getD .null],
      (lookupA m "open").getD ((lookupA m "o").getD .null),
      (lookupA m "high").getD ((lookupA m "h").getD .null),
      (lookupA m "low").getD ((lookupA m "l").getD .null),
      (lookupA m "close").getD ((lookupA m "c").getD .null),
      (lookupA m "volume").getD ((lookupA m "v").getD .null)⟩
  | _ => none

/-- The first list-valued entry of a dict, in insertion order (the
`for v in raw.values()` fallback of lines 132-135). -/
def firstListValue : List (String × JVal) → Option JVal
  | [] => none
  | (_, .arr l) :: _ => some (.arr l)
  | _ :: rest => firstListValue rest

/-- The else-branch of the extraction (lines 128-135): `raw["list"]` when it
is a list, otherwise the first list value of raw. -/
def elseExtract (m : List (String × JVal)) : Option JVal :=
  match lookupA m "list" with
  | some (.arr l) => some (.arr l)
  | _ => firstListValue m

/-- Lines 119-137: select the item container from the response shape.
`res = raw.get("result", raw)`; a dict res with a "list" key yields that
value unconditionally; a list res is taken as is; a dict res with a
list-valued "data" key yields it; otherwise the else-branch on raw. -/
def extract_items (raw : JVal) : Option JVal :=
  match raw with
  | .arr l => some (.arr l)
  | .obj m =>
    match (lookupA m "result").getD (.obj m) with
    | .obj rm =>
      match lookupA rm "list" with
      | some v => some v
      | none =>
        match lookupA rm "data" with
        | some (.arr d) => some (.arr d)
        | _ => elseExtract m
    | .arr l => some (.arr l)
    | _ => elseExtract m
  | _ => none

/-- Iterating the item container: lists yield their elements, dicts their
keys, strings their characters (as one-character strings); non-iterables
raise, which the enclosing try turns into None. -/
def itemsList : JVal → Option (List JVal)
  | .arr l => some l
  | .obj m => some (m.map (fun kv => JVal.str kv.1))
  | .str s => some (s.data.map (fun ch => JVal.str (String.mk [ch])))
  | _ => none

/-- Timestamp conversion, numeric coercion and the NaT row drop for one raw
row: `none` exactly when the timestamp fails to parse; numeric cells that
fail to coerce are kept as `none` (NaN). -/
def parseRow (calParse : JVal → Option ℚ) (r : RawRow) : Option OhlcvRow :=
  match toDt calParse r.ts with
  | none => none
  | some t => some ⟨t, numParse r.o, numParse r.h, numParse r.l, numParse r.c,
      numParse r.vol⟩

/-- Output ordering: by timestamp. -/
def rowLe (a b : OhlcvRow) : Prop := a.t ≤ b.t

instance : DecidableRel rowLe := fun a b => inferInstanceAs (Decidable (a.t ≤ b.t))

instance : IsTotal OhlcvRow rowLe := ⟨fun a b => le_total a.t b.t⟩

instance : IsTrans OhlcvRow rowLe := ⟨fun _ _ _ h1 h2 => le_trans h1 h2⟩

/-- normalize_ohlcv_to_df (lines 113-177) on a JSON-decoded response. -/
def normalize_ohlcv_to_df (calParse : JVal → Option ℚ) (raw : JVal) :
    Option (List OhlcvRow) :=
  match extract_items raw with
  | none => none
  | some items =>
    if truthy items then
      match itemsList items with
      | none => none
      | some l =>
        let rows := l.filterMap rowOfItem
        if rows.isEmpty then none
        else some (List.insertionSort rowLe (rows.filterMap (parseRow calParse)))
    else none

/-- C7: whenever the normalizer accepts a response, the output is sorted by
timestamp (non-decreasing, for any input row order since the input is
universally quantified); the output is a permutation of exactly the
timestamp-parseable parsed rows; a row whose timestamp neither reads as
epoch milliseconds nor calendar-parses is absent (parseRow none); and a row
with a parseable timestamp is kept with each unparseable numeric field
unset (`numParse` giving none). -/
theorem normalize_sorted_and_filtered (calParse : JVal → Option ℚ) (raw : JVal)
    (df : List OhlcvRow) (h : normalize_ohlcv_to_df calParse raw = some df) :
    List.Sorted rowLe df ∧
    ∃ items l, extract_items raw = some items ∧ itemsList items = some l ∧
      List.Perm df ((l.filterMap rowOfItem).filterMap (parseRow calParse)) ∧
      (∀ r ∈ l.filterMap rowOfItem, toDt calParse r.ts = none →
        parseRow calParse r = none) ∧
      (∀ r ∈ l.filterMap rowOfItem, ∀ t, toDt calParse r.ts = some t →
        parseRow calParse r = some ⟨t, numParse r.o, numParse r.h, numParse r.l,
          numParse r.c, numParse r.vol⟩) := by
  unfold normalize_ohlcv_to_df at h
  cases he : extract_items raw with
  | none => rw [he] at h; cases h
  | some items =>
    rw [he] at h
    simp only at h
    by_cases ht : truthy items = true
    · rw [if_pos ht] at h
      cases hl : itemsList items with
      | none => rw [hl] at h; cases h
      | some l =>
        rw [hl] at h
        simp only at h
        by_cases hr : (l.filterMap rowOfItem).isEmpty = true
        · rw [if_pos hr] at h; cases h
        · rw [if_neg hr] at h
          injection h with h2
          subst h2
          refine ⟨List.sorted_insertionSort rowLe _, items, l, rfl, hl,
            List.perm_insertionSort rowLe _, ?_, ?_⟩
          · intro r _ hts
            unfold parseRow
            rw [hts]
          · intro r _ t hts
            unfold parseRow
            rw [hts]
    · rw [if_neg ht] at h; cases h

/-- The specification example input: rows with timestamps 100, "bad", 50 (the
last one also has an unparseable open field "x"). -/
def rawExample : JVal := .arr
  [.arr [.num 100, .num 1, .num 2, .num 3, .num 4, .num 5],
   .arr [.str "bad", .num 1, .num 2, .num 3, .num 4, .num 5],
   .arr [.num 50, .str "x", .num 2, .num 3, .num 4, .num 5]]

/-- Witness for C7 at the specification example, with a calendar parser that
accepts nothing: the "bad" row is dropped, output is ordered 50 then 100 and
keeps the row whose open field failed to parse (open = none). -/
theorem normalize_sorted_and_filtered_witness :
    List.Sorted rowLe
      [OhlcvRow.mk 50 none (some 2) (some 3) (some 4) (some 5),
       OhlcvRow.mk 100 (some 1) (some 2) (some 3) (some 4) (some 5)] ∧
    ∃ items l, extract_items rawExample = some items ∧ itemsList items = some l ∧
      List.Perm
        [OhlcvRow.mk 50 none (some 2) (some 3) (some 4) (some 5),
         OhlcvRow.mk 100 (some 1) (some 2) (some 3) (some 4) (some 5)]
        ((l.filterMap rowOfItem).filterMap (parseRow (fun _ => none))) ∧
      (∀ r ∈ l.filterMap rowOfItem, toDt (fun _ => none) r.ts = none →
        parseRow (fun _ => none) r = none) ∧
      (∀ r ∈ l.filterMap rowOfItem, ∀ t, toDt (fun _ => none) r.ts = some t →
        parseRow (fun _ => none) r = some ⟨t, numParse r.o, numParse r.h,
          numParse r.l, numParse r.c, numParse r.vol⟩) :=
  normalize_sorted_and_filtered (fun _ => none) rawExample
    [OhlcvRow.mk 50 none (some 2) (some 3) (some 4) (some 5),
     OhlcvRow.mk 100 (some 1) (some 2) (some 3) (some 4) (some 5)] (by rfl)

/-!
IndicatorEngine model (trading_core.py rsi_series, lines 179-192, the
pandas fallback path; the optional `ta` dependency is absent).

pandas float semantics are embedded exactly where the computation needs
them: `FVal` is a rational extended with +inf, -inf and NaN following
IEEE-754/numpy rules for the operations used (`0/0 = NaN`, `x/0 = ±inf` for
`x ≠ 0`, NaN propagates).  `close.diff()` puts NaN at index 0;
`ewm(alpha, adjust=False).mean()` seeds on the first non-NaN value (for the
inputs arising from a plain numeric price series, NaN occurs only at index
0, so post-seed non-numeric inputs — modelled as carrying the previous
mean — never occur). -/

inductive FVal where
  | num (q : ℚ) : FVal
  | pinf : FVal
  | ninf : FVal
  | nan : FVal
deriving DecidableEq

/-- IEEE addition on the modelled values. -/
def fadd : FVal → FVal → FVal
  | .nan, _ => .nan
  | _, .nan => .nan
  | .num a, .num b => .num (a + b)
  | .pinf, .ninf => .nan
  | .ninf, .pinf => .nan
  | .pinf, _ => .pinf
  | _, .pinf => .pinf
  | .ninf, _ => .ninf
  | _, .ninf => .ninf

/-- IEEE subtraction on the modelled values. -/
def fsub : FVal → FVal → FVal
  | .nan, _ => .nan
  | _, .nan => .nan
  | .num a, .num b => .num (a - b)
  | .pinf, .pinf => .nan
  | .ninf, .ninf => .nan
  | .pinf, _ => .pinf
  | _, .pinf => .ninf
  | .ninf, _ => .ninf
  | _, .ninf => .pinf

/-- IEEE division on the modelled values: `0/0` is NaN, `x/0` is a signed
infinity (numpy semantics for Series division). -/
def fdiv : FVal → FVal → FVal
  | .nan, _ => .nan
  | _, .nan => .nan
  | .num a, .num b =>
    if b = 0 then (if a = 0 then .nan else if 0 < a then .pinf else .ninf)
    else .num (a / b)
  | .pinf, .pinf => .nan
  | .pinf, .ninf => .nan
  | .ninf, .pinf => .nan
  | .ninf, .ninf => .nan
  | .pinf, .num b => if 0 ≤ b then .pinf else .ninf
  | .ninf, .num b => if 0 ≤ b then .ninf else .pinf
  | .num _, .pinf => .num 0
  | .num _, .ninf => .num 0

/-- Negation. -/
def fneg : FVal → FVal
  | .num a => .num (-a)
  | .pinf => .ninf
  | .ninf => .pinf
  | .nan => .nan

/-- `delta.clip(lower=0)` on one cell (max with 0). -/
def fclipLower0 : FVal → FVal
  | .num a => .num (if a ≤ 0 then 0 else a)
  | .pinf => .pinf
  | .ninf => .num 0
  | .nan => .nan

/-- `delta.clip(upper=0)` on one cell (min with 0). -/
def fclipUpper0 : FVal → FVal
  | .num a => .num (if 0 ≤ a then 0 else a)
  | .pinf => .num 0
  | .ninf => .ninf
  | .nan => .nan

/-- Tail of `close.diff()`: consecutive differences. -/
def diffAux : ℚ → List ℚ → List FVal
  | _, [] => []
  | x, y :: rest => .num (y - x) :: diffAux y rest

/-- `close.diff()` on a plain numeric series: NaN at index 0, then
consecutive differences. -/
def diffL : List ℚ → List FVal
  | [] => []
  | x :: rest => .nan :: diffAux x rest

/-- `ewm(alpha, adjust=False).mean()`: NaN while unseeded, seed on the first
number, then the recurrence `m2 = (1 - alpha) * m + alpha * x`. -/
def ewmAux (a : ℚ) : Option ℚ → List FVal → List FVal
  | _, [] => []
  | none, .num x :: rest => .num x :: ewmAux a (some x) rest
  | none, _ :: rest => .nan :: ewmAux a none rest
  | some m, .num x :: rest =>
    .num ((1 - a) * m + a * x) :: ewmAux a (some ((1 - a) * m + a * x)) rest
  | some m, _ :: rest => .num m :: ewmAux a (some m) rest

/-- rsi_series (lines 179-192), pandas fallback: Wilder-style smoothing with
alpha = 1/period over clipped differences, `rs = ma_up / ma_down`,
`rsi = 100 - 100 / (1 + rs)`. -/
def rsi_series (close : List ℚ) (period : ℕ) : List FVal :=
  let a : ℚ := 1 / (period : ℚ)
  let delta := diffL close
  let up := delta.map fclipLower0
  let down := (delta.map fclipUpper0).map fneg
  let maUp := ewmAux a none up
  let maDown := ewmAux a none down
  let rs := List.zipWith fdiv maUp maDown
  rs.map (fun r => fsub (.num 100) (fdiv (.num 100) (fadd (.num 1) r)))

theorem diffAux_replicate (q : ℚ) (n : ℕ) :
    diffAux q (List.replicate n q) = List.replicate n (.num 0) := by
  induction n with
  | zero => rfl
  | succ m ih => simp [List.replicate_succ, diffAux, ih, sub_self]

theorem ewm_zeros (a : ℚ) (n : ℕ) :
    ewmAux a (some 0) (List.replicate n (.num 0)) = List.replicate n (.num 0) := by
  induction n with
  | zero => rfl
  | succ m ih =>
    have hz : (1 - a) * 0 + a * 0 = 0 := by ring
    simp only [List.replicate_succ, ewmAux, hz, ih]

theorem ewm_zero_head (a : ℚ) (n : ℕ) :
    ewmAux a none (List.replicate n (.num 0)) = List.replicate n (.num 0) := by
  cases n with
  | zero => rfl
  | succ m =>
    simp only [List.replicate_succ, ewmAux]
    exact congrArg _ (ewm_zeros a m)

theorem zipWith_self_replicate (f : FVal → FVal → FVal) (x : FVal) (n : ℕ) :
    List.zipWith f (List.replicate n x) (List.replicate n x) =
      List.replicate n (f x x) := by
  induction n with
  | zero => rfl
  | succ m ih => simp [List.replicate_succ, ih]

/-- On any constant series the rsi_series fallback computes NaN everywhere:
index 0 from the diff NaN, and every later index from `rs = 0/0 = NaN`. -/
theorem rsi_replicate_nan (n : ℕ) (q : ℚ) (period : ℕ) :
    rsi_series (List.replicate n q) period = List.replicate n FVal.nan := by
  cases n with
  | zero => rfl
  | succ m =>
    have hdiff : diffL (List.replicate (m + 1) q) =
        FVal.nan :: List.replicate m (.num 0) := by
      rw [List.replicate_succ]
      simp only [diffL, diffAux_replicate]
    have hclipL : fclipLower0 (FVal.num 0) = FVal.num 0 := by
      simp [fclipLower0]
    have hclipU : fneg (fclipUpper0 (FVal.num 0)) = FVal.num 0 := by
      simp [fclipUpper0, fneg]
    have hup : (diffL (List.replicate (m + 1) q)).map fclipLower0 =
        FVal.nan :: List.replicate m (.num 0) := by
      rw [hdiff]
      simp [List.map_replicate, hclipL, fclipLower0]
    have hdown : ((diffL (List.replicate (m + 1) q)).map fclipUpper0).map fneg =
        FVal.nan :: List.replicate m (.num 0) := by
      rw [hdiff]
      simp only [List.map_cons, List.map_replicate]
      rw [show fneg (fclipUpper0 FVal.nan) = FVal.nan from rfl, hclipU]
    have hewm : ∀ l, l = FVal.nan :: List.replicate m (.num 0) →
        ewmAux (1 / (period : ℚ)) none l = FVal.nan :: List.replicate m (.num 0) := by
      intro l hl
      subst hl
      simp only [ewmAux]
      exact congrArg _ (ewm_zero_head _ m)
    have hdiv00 : fdiv (FVal.num 0) (FVal.num 0) = FVal.nan := by
      simp [fdiv]
    have hfin : fsub (FVal.num 100) (fdiv (FVal.num 100) (fadd (FVal.num 1) FVal.nan)) =
        FVal.nan := rfl
    show ((List.zipWith fdiv
      (ewmAux (1 / (period : ℚ)) none ((diffL (List.replicate (m + 1) q)).map fclipLower0))
      (ewmAux (1 / (period : ℚ)) none
        (((diffL (List.replicate (m + 1) q)).map fclipUpper0).map fneg))).map
      (fun r => fsub (.num 100) (fdiv (.num 100) (fadd (.num 1) r)))) =
      List.replicate (m + 1) FVal.nan
    rw [hewm _ hup, hewm _ hdown]
    simp only [List.zipWith_cons_cons, zipWith_self_replicate, hdiv00]
    simp only [List.map_cons, List.map_replicate, hfin, List.replicate_succ]
    rfl

/-- C8 counterexample: a constant series of length 15 with period 14 (length
greater than the period) has RSI = NaN at index 1 (both smoothed means are
0, so `rs = 0/0 = NaN`), not the neutral 50 the claim states. -/
theorem rsi_constant_counterexample :
    (rsi_series (List.replicate 15 5) 14).get? 1 = some FVal.nan ∧
    some FVal.nan ≠ some (FVal.num 50) := by
  rw [rsi_replicate_nan 15 5 14]
  constructor
  · rfl
  · intro h
    injection h with h2
    cases h2

/-- C8 (amended): on every constant closing-price series the fallback RSI is
NaN at every index — index 0 from the diff NaN and all later indices from
`rs = 0/0 = NaN` (both smoothed means are zero) — not the neutral 50; the
computation is total: it returns a series of the same length and does not
crash (the period must be positive, as Python raises ZeroDivisionError on
`1/period` otherwise). -/
theorem rsi_constant_amended (n : ℕ) (q : ℚ) (period : ℕ) (hp : 0 < period) :
    rsi_series (List.replicate n q) period = List.replicate n FVal.nan ∧
    (rsi_series (List.replicate n q) period).length = n := by
  refine ⟨rsi_replicate_nan n q period, ?_⟩
  rw [rsi_replicate_nan n q period, List.length_replicate]

/-- Witness for the amended C8 at length 15, price 5, period 14. -/
theorem rsi_constant_amended_witness :
    rsi_series (List.replicate 15 5) 14 = List.replicate 15 FVal.nan ∧
    (rsi_series (List.replicate 15 5) 14).length = 15 :=
  rsi_constant_amended 15 5 14 (by decide)

/-!
Trade-ledger model (db_json.py get_trades_for_user, lines 165-170; the
ledger produced by append_trade, lines 156-162, is an append-only list of
record dicts per the persisted layout). -/

/-- db_json.get_trades_for_user for a uid already in string form:
`[t for t in trades if str(t.get("user_id")) == uid][-limit:]`.  The Python
slice `[-limit:]` with `limit = 0` is `[-0:]`, i.e. the WHOLE filtered list;
for positive limit it is the last `min limit length` entries. -/
def get_trades_for_user (uid : String) (limit : ℕ)
    (trades : List (List (String × JVal))) : List (List (String × JVal)) :=
  let ut := trades.filter (fun t => pyStr ((lookupA t "user_id").getD .null) == uid)
  if limit = 0 then ut else ut.drop (ut.length - limit)

/-- C9 counterexample: with `limit = 0` the claim demands exactly the last 0
records, i.e. the empty list, but `[-0:]` returns the whole filtered ledger:
on a one-record ledger of the queried user the result is that record, not
empty. -/
theorem trades_limit_zero_counterexample :
    get_trades_for_user "1" 0 [[("user_id", JVal.str "1")]] =
      [[("user_id", JVal.str "1")]] ∧
    ([[("user_id", JVal.str "1")]] : List (List (String × JVal))) ≠ [] := by
  constructor
  · rfl
  · intro h
    cases h

/-- C9 (amended, limit restricted to positive): for every ledger, uid and
POSITIVE limit, the result is a suffix of the chronologically-ordered
filtered sub-ledger of records whose stringified user_id equals uid, of
length `min limit (number of matching records)` — i.e. exactly the last
`limit` matching records in original append order — and every returned
record belongs to the queried user.  (At `limit = 0` the code instead
returns all matching records.) -/
theorem trades_for_user_amended (uid : String) (limit : ℕ)
    (trades : List (List (String × JVal))) (hl : 0 < limit) :
    (get_trades_for_user uid limit trades) <:+
      (trades.filter (fun t => pyStr ((lookupA t "user_id").getD .null) == uid)) ∧
    (get_trades_for_user uid limit trades).length =
      min limit
        (trades.filter (fun t => pyStr ((lookupA t "user_id").getD .null) == uid)).length ∧
    ∀ t ∈ get_trades_for_user uid limit trades,
      pyStr ((lookupA t "user_id").getD .null) = uid := by
  have hne : ¬limit = 0 := Nat.pos_iff_ne_zero.mp hl
  unfold get_trades_for_user
  rw [if_neg hne]
  set ut := trades.filter (fun t => pyStr ((lookupA t "user_id").getD .null) == uid)
    with hut
  refine ⟨List.drop_suffix _ _, ?_, ?_⟩
  · rw [List.length_drop]
    omega
  · intro t ht
    have hmem : t ∈ ut := (List.drop_suffix _ _).mem ht
    rw [hut] at hmem
    have := (List.mem_filter.mp hmem).2
    exact eq_of_beq this

/-- The specification example ledger: five records of user "7" interleaved
with records of other users. -/
def ledgerExample : List (List (String × JVal)) :=
  [[("user_id", JVal.str "7"), ("n", JVal.num 1)],
   [("user_id", JVal.str "8"), ("n", JVal.num 2)],
   [("user_id", JVal.str "7"), ("n", JVal.num 3)],
   [("user_id", JVal.str "7"), ("n", JVal.num 4)],
   [("user_id", JVal.num 9), ("n", JVal.num 5)],
   [("user_id", JVal.str "7"), ("n", JVal.num 6)],
   [("user_id", JVal.str "7"), ("n", JVal.num 7)]]

/-- Witness for the amended C9 at the specification example (limit 2). -/
theorem trades_for_user_amended_witness :
    (get_trades_for_user "7" 2 ledgerExample) <:+
      (ledgerExample.filter (fun t => pyStr ((lookupA t "user_id").getD .null) == "7")) ∧
    (get_trades_for_user "7" 2 ledgerExample).length =
      min 2
        (ledgerExample.filter
          (fun t => pyStr ((lookupA t "user_id").getD .null) == "7")).length ∧
    ∀ t ∈ get_trades_for_user "7" 2 ledgerExample,
      pyStr ((lookupA t "user_id").getD .null) = "7" :=
  trades_for_user_amended "7" 2 ledgerExample (by decide)
